import Mathlib

/-!
Verification of the VectorGov SDK payload-serialization core
(`src/vectorgov/payload.py` and the result entities of
`src/vectorgov/models.py`) against its natural-language specification.

The Python code is shallowly embedded: result entities become Lean
structures, the pure builder functions become Lean functions over them.
Python `float` scores and latencies are modelled as exact rationals
(`ℚ`); Python `int` as `ℤ`; Python `Optional[T]` as `Option T`; Python
string truthiness (`if s:`) as an explicit `pyTruthy`.  Functions that
`raise` are modelled as `Except PyError`.  Fields of the entities that
no payload builder reads (timestamps, boost floats, parent/sibling
flags, ...) are omitted from the structures.
-/

/-- Python truthiness of an optional string: `None` and `""` are falsy. -/
def pyTruthy : Option String → Bool
  | none => false
  | some s => s ≠ ""

/-- Python `str(bool)` lower-cased, as used by `str(x).lower()` in the builders. -/
def pyBoolStr (b : Bool) : String := if b then "true" else "false"

/-- Python `int()` truncation toward zero of a rational. -/
def pyIntTrunc (q : ℚ) : ℤ := if 0 ≤ q then ⌊q⌋ else -⌊-q⌋

/-- Python `round()` to an integer: round-half-to-even (banker's rounding). -/
def pyRoundInt (q : ℚ) : ℤ :=
  if q - ⌊q⌋ < 1/2 then ⌊q⌋
  else if 1/2 < q - ⌊q⌋ then ⌊q⌋ + 1
  else if ⌊q⌋ % 2 = 0 then ⌊q⌋ else ⌊q⌋ + 1

/-- Python `round(q, prec)`: rounding to `prec` decimal places.
Floats are modelled as exact rationals, so this is exact decimal rounding
with round-half-to-even ties, matching CPython on representable values. -/
def pyRound (prec : Nat) (q : ℚ) : ℚ :=
  (pyRoundInt (q * (10 ^ prec : ℕ))) / (10 ^ prec : ℕ)

/-- Left-pad a string with zeros up to length `len`. -/
def padZeros (s : String) (len : Nat) : String :=
  ⟨List.replicate (len - s.length) '0'⟩ ++ s

/-- Python fixed-point formatting `f"{q:.{prec}f}"` of a float modelled as a
rational: exact decimal rounding (half-to-even) then rendering with exactly
`prec` digits after the point. -/
def formatFixed (prec : Nat) (q : ℚ) : String :=
  let p : ℤ := (10 : ℤ) ^ prec
  let n : ℤ := pyRoundInt (q * p)
  let sign : String := if n < 0 then "-" else ""
  let na : Nat := n.natAbs
  let ip : Nat := na / 10 ^ prec
  let fp : Nat := na % 10 ^ prec
  if prec = 0 then sign ++ toString ip
  else sign ++ toString ip ++ "." ++ padZeros (toString fp) prec

/-- Python `str()` of a numeric field that holds an integral value; the
builders only apply it to server-supplied counters and (in the tests)
integral latencies, so only the integral case is rendered exactly.  A
non-integral float's shortest-roundtrip repr is not modelled. -/
def pyNumStr (q : ℚ) : String :=
  if q.den = 1 then toString q.num else formatFixed 17 q

-- ===========================================================================
-- urllib.parse.quote with safe='' (percent-encoding of the chunk_id)
-- ===========================================================================

/-- UTF-8 bytes of a character, by the standard bit layout. -/
def utf8Bytes (c : Char) : List Nat :=
  let n := c.toNat
  if n < 0x80 then [n]
  else if n < 0x800 then [0xC0 + n / 0x40, 0x80 + n % 0x40]
  else if n < 0x10000 then
    [0xE0 + n / 0x1000, 0x80 + (n / 0x40) % 0x40, 0x80 + n % 0x40]
  else
    [0xF0 + n / 0x40000, 0x80 + (n / 0x1000) % 0x40,
     0x80 + (n / 0x40) % 0x40, 0x80 + n % 0x40]

/-- Upper-case hexadecimal digit, as produced by `urllib.parse.quote`. -/
def hexDigit (n : Nat) : Char :=
  if n < 10 then Char.ofNat (48 + n) else Char.ofNat (65 + n - 10)

/-- The characters `urllib.parse.quote` never encodes (`_ALWAYS_SAFE`):
ASCII letters, digits, and `_ . - ~`. -/
def urlAlwaysSafe (c : Char) : Bool :=
  (('a' ≤ c && c ≤ 'z') || ('A' ≤ c && c ≤ 'Z') || ('0' ≤ c && c ≤ '9')
    || c = '_' || c = '.' || c = '-' || c = '~')

/-- `urllib.parse.quote(s, safe='')`: percent-encode every byte of every
character outside `_ALWAYS_SAFE`. -/
def urlQuote (s : String) : String :=
  String.join (s.data.map fun c =>
    if urlAlwaysSafe c then String.singleton c
    else String.join ((utf8Bytes c).map fun b =>
      "%" ++ String.singleton (hexDigit (b / 16)) ++ String.singleton (hexDigit (b % 16))))

-- ===========================================================================
-- Data model (models.py, fields read by the payload builders)
-- ===========================================================================

/-- `Metadata` of a hit (models.py).  `extra` is never read by the builders
and is omitted. -/
structure Metadata where
  document_type : String
  document_number : String
  year : ℤ
  article : Option String := none
  paragraph : Option String := none
  item : Option String := none
  orgao : Option String := none
  device_type : Option String := none
deriving Repr, DecidableEq

/-- `Hit` (models.py).  Scores are floats modelled as rationals.  Fields the
payload builders never read (context, theme, boost values, parent/sibling
flags, urls, paths, ...) are omitted. -/
structure Hit where
  text : String
  score : ℚ
  source : String
  metadata : Metadata
  chunk_id : Option String := none
  nota_especialista : Option String := none
  jurisprudencia_tcu : Option String := none
  acordao_tcu_key : Option String := none
  acordao_tcu_link : Option String := none
  page_number : Option ℤ := none
  canonical_hash : Option String := none
  canonical_start : Option ℤ := none
  origin_type : Option String := none
  origin_reference : Option String := none
  stitched_text : Option String := none
  pure_rerank_score : Option ℚ := none
  node_id : Option String := none
  span_id : Option String := none
  document_id : Option String := none
  device_type : Option String := none
  article_number : Option String := none
  hop : Option ℤ := none
  frequency : Option ℤ := none
  relacao : Option String := none
  is_current : Bool := false
deriving Repr, DecidableEq

/-- An expanded chunk, as the payload builders consume it: an object with
the attributes read by `_collect_ids`, `_build_contexto_normativo_element`
and `build_markdown` (the `ExpandedChunk` objects built by
`client._parse_search_response`, whose string fields default to `""`). -/
structure ExpandedChunk where
  chunk_id : String := ""
  node_id : String := ""
  text : String := ""
  document_id : String := ""
  span_id : String := ""
  device_type : String := "article"
  source_chunk_id : String := ""
  source_citation_raw : String := ""
  hop : ℤ := 1
  relacao : String := "citacao"
deriving Repr, DecidableEq

/-- Citation-expansion statistics (the fields the builders read). -/
structure ExpansionStats where
  expanded_chunks_count : ℤ := 0
  citations_scanned_count : ℤ := 0
  citations_resolved_count : ℤ := 0
  expansion_time_ms : ℚ := 0
deriving Repr, DecidableEq

/-- The slice of the raw server response the builders read:
`raw["query_interpretation"]["rewritten_query"]` and `bool(raw["reranker"])`.
`none` models an absent key; the `reranker` value is stored already
coerced by `bool(...)`. -/
structure RawQueryInterpretation where
  rewritten_query : Option String := none
deriving Repr, DecidableEq

structure RawResponse where
  query_interpretation : Option RawQueryInterpretation := none
  reranker : Option Bool := none
deriving Repr, DecidableEq

/-- `SearchResult` (models.py).  `timestamp` is never read by the builders
and is omitted. -/
structure SearchResult where
  query : String := ""
  total : ℤ := 0
  latency_ms : ℚ := 0
  cached : Bool := false
  query_id : String := ""
  raw_response : Option RawResponse := none
  hits : List Hit := []
  mode : String := ""
  expanded_chunks : List ExpandedChunk := []
  expansion_stats : Option ExpansionStats := none
deriving Repr, DecidableEq

/-- The slice of the hybrid `stats` dict the builders read. -/
structure HybridTimings where
  search_ms : Option ℚ := none
  rerank_ms : Option ℚ := none
  graph_ms : Option ℚ := none
deriving Repr, DecidableEq

structure HybridStats where
  timings : Option HybridTimings := none
  seeds_count : Option ℤ := none
  hits_milvus : Option ℤ := none
  graph_nodes : Option ℤ := none
  total_chunks : Option ℤ := none
  total_tokens : Option ℤ := none
deriving Repr, DecidableEq

/-- `HybridResult` (models.py).  `search_time_ms` is an alias of
`latency_ms`; `direct_evidence` an alias of `hits`; `graph_expansion` an
alias of `graph_nodes`. -/
structure HybridResult where
  query : String := ""
  total : ℤ := 0
  latency_ms : ℚ := 0
  cached : Bool := false
  query_id : String := ""
  raw_response : Option RawResponse := none
  hits : List Hit := []
  graph_nodes : List Hit := []
  stats : Option HybridStats := none
  confidence : ℚ := 0
  hyde_used : Bool := false
  docfilter_active : Bool := false
  docfilter_detected_doc_id : Option String := none
  query_rewrite_active : Bool := false
  query_rewrite_clean_query : Option String := none
  dual_lane_active : Bool := false
  mode : String := "hybrid"
deriving Repr, DecidableEq

/-- The parsed-reference mapping of a lookup result (`resolved` dict keys
read by `build_lookup_xml`); `none` models an absent or falsy value. -/
structure LookupResolved where
  device_type : Option String := none
  article_number : Option String := none
  paragraph_number : Option String := none
  inciso_number : Option String := none
  alinea_letter : Option String := none
  resolved_document_id : Option String := none
  resolved_span_id : Option String := none
deriving Repr, DecidableEq

structure LookupCandidate where
  document_id : String
  node_id : String
  text : String
  tipo_documento : Option String := none
deriving Repr, DecidableEq

/-- `LookupResult` (models.py).  `reference` is an alias of `query` and
`elapsed_ms` of `latency_ms`. -/
structure LookupResult where
  query : String := ""
  latency_ms : ℚ := 0
  cached : Bool := false
  query_id : String := ""
  raw_response : Option RawResponse := none
  status : String := ""
  message : Option String := none
  «match» : Option Hit := none
  parent : Option Hit := none
  siblings : List Hit := []
  resolved : Option LookupResolved := none
  candidates : List LookupCandidate := []
deriving Repr, DecidableEq

-- ===========================================================================
-- XML tree model (xml.etree.ElementTree as the builders use it)
-- ===========================================================================

/-- An ElementTree element: tag name, attributes in `set` order, text
content and child elements.  An attribute value of `none` records a Python
`None` passed to `el.set` (which `ET.tostring` would reject; no claim
depends on serializing such a tree). -/
inductive XElem where
  | mk (name : String) (attrs : List (String × Option String))
       (text : String) (children : List XElem)
deriving Repr

def XElem.name : XElem → String
  | .mk n _ _ _ => n

def XElem.attrs : XElem → List (String × Option String)
  | .mk _ a _ _ => a

def XElem.text : XElem → String
  | .mk _ _ t _ => t

def XElem.children : XElem → List XElem
  | .mk _ _ _ c => c

/-- The children of `e` whose tag is `n`. -/
def XElem.childrenNamed (e : XElem) (n : String) : List XElem :=
  e.children.filter (fun c => c.name = n)

/-- Attribute lookup (first `set` wins; every builder sets distinct keys). -/
def XElem.attr (e : XElem) (k : String) : Option (Option String) :=
  (e.attrs.find? (fun p => p.1 = k)).map Prod.snd

-- ===========================================================================
-- Escaping (xml.sax.saxutils / ElementTree serialization)
-- ===========================================================================

/-- Replace every occurrence of the single character `c` by `rep`
(Python `str.replace` with a one-character needle). -/
def replaceChar (c : Char) (rep : List Char) (l : List Char) : List Char :=
  (l.map (fun x => if x = c then rep else [x])).flatten

/-- `xml.sax.saxutils.escape(data, {'"': "&quot;"})` as called by
`escape_xml`: sequential global replacements of `&`, then `>`, then `<`,
then the extra `"` entity. -/
def saxEscape (l : List Char) : List Char :=
  replaceChar '"' "&quot;".data
    (replaceChar '<' "&lt;".data
      (replaceChar '>' "&gt;".data
        (replaceChar '&' "&amp;".data l)))

/-- `escape_xml` (payload.py): `None` and `""` give `""`, otherwise the
sax escape above. -/
def escape_xml (text : Option String) : String :=
  match text with
  | none => ""
  | some s => if s = "" then "" else ⟨saxEscape s.data⟩

/-- Per-character code of the sax escape (its net effect; proved equal to
the sequential replacements below). -/
def escapeXmlChar (c : Char) : List Char :=
  if c = '&' then "&amp;".data
  else if c = '<' then "&lt;".data
  else if c = '>' then "&gt;".data
  else if c = '"' then "&quot;".data
  else [c]

/-- Text-content escaping used by `ET.tostring` (`_escape_cdata`):
`&`, `<` and `>` only — `"` stays raw in text nodes. -/
def escCdataChar (c : Char) : List Char :=
  if c = '&' then "&amp;".data
  else if c = '<' then "&lt;".data
  else if c = '>' then "&gt;".data
  else [c]

def escCdata (l : List Char) : List Char := (l.map escCdataChar).flatten

/-- Entity decoding as an XML parser recovers text content: each of the
four entities produced by the serializers maps back to its character; a
stray `&` (which a conforming parser would reject, and which the escapers
never emit) is kept as-is. -/
def decodeEntities : List Char → List Char
  | [] => []
  | '&' :: 'a' :: 'm' :: 'p' :: ';' :: r2 => '&' :: decodeEntities r2
  | '&' :: 'l' :: 't' :: ';' :: r2 => '<' :: decodeEntities r2
  | '&' :: 'g' :: 't' :: ';' :: r2 => '>' :: decodeEntities r2
  | '&' :: 'q' :: 'u' :: 'o' :: 't' :: ';' :: r2 => '"' :: decodeEntities r2
  | c :: rest => c :: decodeEntities rest

/-- Well-formedness of serialized text content: no raw `<`, and every `&`
begins one of the four entities — exactly what an XML parser needs to
accept the text of an element without error. -/
def textWellFormed : List Char → Bool
  | [] => true
  | '&' :: 'a' :: 'm' :: 'p' :: ';' :: r2 => textWellFormed r2
  | '&' :: 'l' :: 't' :: ';' :: r2 => textWellFormed r2
  | '&' :: 'g' :: 't' :: ';' :: r2 => textWellFormed r2
  | '&' :: 'q' :: 'u' :: 'o' :: 't' :: ';' :: r2 => textWellFormed r2
  | '&' :: _ => false
  | '<' :: _ => false
  | _ :: rest => textWellFormed rest

/-- Attribute-value escaping used by `ET.tostring` (`_escape_attrib`). -/
def escAttribChar (c : Char) : List Char :=
  if c = '&' then "&amp;".data
  else if c = '<' then "&lt;".data
  else if c = '>' then "&gt;".data
  else if c = '"' then "&quot;".data
  else if c = '\r' then "&#13;".data
  else if c = '\n' then "&#10;".data
  else if c = '\t' then "&#09;".data
  else [c]

def escAttrib (l : List Char) : List Char := (l.map escAttribChar).flatten

/-- Serialization of one attribute; a `None` value (which `ET.tostring`
would reject with a `TypeError`) is rendered as the empty value here. -/
def serAttr (p : String × Option String) : String :=
  " " ++ p.1 ++ "=\"" ++ ⟨escAttrib (p.2.getD "").data⟩ ++ "\""

/-- `_element_to_string` (payload.py): `ET.indent` then `ET.tostring`.
The pretty-printing whitespace inserted by `ET.indent` (which touches only
elements that have children) and the self-closing short form for childless
empty elements are not modelled; tag structure, attribute order and
escaping are. -/
def serElem : XElem → String
  | .mk n attrs text children =>
    "<" ++ n ++ String.join (attrs.map serAttr) ++ ">"
      ++ ⟨escCdata text.data⟩
      ++ String.join (children.attach.map (fun c => serElem c.1))
      ++ "</" ++ n ++ ">"
termination_by e => sizeOf e
decreasing_by
  simp_wf
  have := List.sizeOf_lt_of_mem c.2
  omega

-- ===========================================================================
-- Span-id extraction and source grouping (payload.py helpers)
-- ===========================================================================

/-- Drop characters up to and including the first occurrence of `sep`. -/
def afterChar : List Char → Char → List Char
  | [], _ => []
  | c :: t, sep => if c = sep then t else afterChar t sep

/-- `_extract_span_id`: the part of the chunk_id after the first `#`; the
chunk_id unchanged when it has no `#`; `""` for `None`/empty. -/
def extract_span_id (chunk_id : Option String) : String :=
  match chunk_id with
  | none => ""
  | some s =>
    if s = "" then ""
    else if '#' ∈ s.data then ⟨afterChar s.data '#'⟩
    else s

/-- Python `s or default` for strings. -/
def pyOrS (s d : String) : String := if s = "" then d else s

/-- Python `str.upper()` (character-wise; the metadata fields are ASCII). -/
def strToUpper (s : String) : String := ⟨s.data.map Char.toUpper⟩

/-- `(m.document_type or "DOC").upper()`. -/
def docTypeKey (m : Metadata) : String := strToUpper (pyOrS m.document_type "DOC")

/-- `m.document_number or "?"`. -/
def docNumKey (m : Metadata) : String := pyOrS m.document_number "?"

/-- `str(m.year) if m.year else "?"`. -/
def docYearKey (m : Metadata) : String := if m.year = 0 then "?" else toString m.year

/-- The grouping key `f"{doc_type}|{doc_num}|{doc_year}"`. -/
def sourceKey (h : Hit) : String :=
  docTypeKey h.metadata ++ "|" ++ docNumKey h.metadata ++ "|" ++ docYearKey h.metadata

/-- One group of `_group_hits_by_source`: the `lei`/`tipo` labels (set from
the first hit inserted under the key) and the hits in insertion order. -/
structure SourceGroup where
  lei : String
  tipo : String
  hits : List Hit
deriving Repr

def mkGroup (h : Hit) : SourceGroup :=
  { lei := docNumKey h.metadata ++ "/" ++ docYearKey h.metadata
    tipo := docTypeKey h.metadata
    hits := [h] }

/-- Insert a hit under its key: append to an existing group, else append a
new group at the end (OrderedDict insertion order). -/
def insertHit : List (String × SourceGroup) → String → Hit → List (String × SourceGroup)
  | [], key, h => [(key, mkGroup h)]
  | (k, g) :: rest, key, h =>
    if k = key then (k, { g with hits := g.hits ++ [h] }) :: rest
    else (k, g) :: insertHit rest key h

def groupHitsAux (acc : List (String × SourceGroup)) : List Hit → List (String × SourceGroup)
  | [] => acc
  | h :: t => groupHitsAux (insertHit acc (sourceKey h) h) t

/-- `_group_hits_by_source`: hits grouped by source key, first-seen order. -/
def group_hits_by_source (hits : List Hit) : List (String × SourceGroup) :=
  groupHitsAux [] hits

-- ===========================================================================
-- In-group ordering (sorted by (-score, canonical_start or inf))
-- ===========================================================================

/-- The tie-break key: `canonical_start`, with `None` as `float("inf")`. -/
def csKey (h : Hit) : WithTop ℤ :=
  match h.canonical_start with
  | none => ⊤
  | some n => (n : WithTop ℤ)

/-- The comparison `key(a) <= key(b)` for `key=lambda h: (-h.score, ...)`:
lexicographic on (negated score, canonical_start-or-infinity). -/
def hitLe (a b : Hit) : Bool :=
  decide (b.score < a.score ∨ (a.score = b.score ∧ csKey a ≤ csKey b))

/-- `sorted(group["hits"], key=...)`: a stable sort by `hitLe`.  Python's
timsort and `List.mergeSort` are both stable, and a stable sort by a total
preorder has a unique result. -/
def sortGroupHits (hits : List Hit) : List Hit := hits.mergeSort hitLe

-- ===========================================================================
-- Instruction constants (payload.py module-level constants)
-- ===========================================================================

def INSTRUCOES_REGRAS : List String :=
  ["Baseie sua resposta EXCLUSIVAMENTE nos dispositivos fornecidos em base_normativa e contexto_normativo.",
   "Cite cada dispositivo usando: [Lei 14.133/2021, Art. 33, Inc. III]",
   "Se a informação não estiver nos dispositivos, diga que não encontrou fundamentação.",
   "Quando houver notas_especialista, incorpore como observação prática.",
   "Quando houver jurisprudencia, cite como entendimento do TCU.",
   "Priorize dispositivos com score mais alto (aparecem primeiro).",
   "Use linguagem formal adequada ao contexto jurídico-administrativo."]

def PAPEL_TEXT : String :=
  "Você é um assistente especializado em legislação brasileira de licitações e contratos públicos. Sua função é responder perguntas com base EXCLUSIVAMENTE nos dispositivos legais fornecidos neste Knowledge Package."

/-- The anti-hallucination rules: (prioridade, texto). -/
def ANTI_ALUCINACAO_REGRAS : List (String × String) :=
  [("critica",
    "NUNCA invente, extrapole ou cite dispositivos que não estejam presentes neste Knowledge Package. Se a informação necessária não estiver aqui, diga explicitamente: \"Não encontrei fundamentação nos dispositivos consultados.\""),
   ("critica",
    "NUNCA cite números de artigo, inciso, parágrafo ou alínea que não apareçam explicitamente no XML. Cada dispositivo tem um id único — use-o."),
   ("alta",
    "Quando houver conflito aparente entre dispositivos, cite ambos e indique a possível divergência ao invés de escolher um.")]

def FORMATO_CITACAO_REGRAS : List String :=
  ["Cite dispositivos no formato: [Lei 14.133/2021, Art. 33, Inc. III]",
   "Para parágrafos: [Lei 14.133/2021, Art. 36, §2º]",
   "Para normas infralegais: [IN 65/2021, Art. 4º]",
   "Para jurisprudência: [Acórdão XXXX/YYYY-TCU-Plenário]"]

def ESTRUTURA_RESPOSTA_REGRAS : List String :=
  ["Comece com uma resposta direta e objetiva à pergunta.",
   "Em seguida, apresente a fundamentação legal com citações.",
   "Se houver notas de especialista, incorpore como observação prática.",
   "Se houver jurisprudência, cite como entendimento do TCU.",
   "Use linguagem formal adequada ao contexto jurídico-administrativo."]

def MODO_GERACAO_DOC_REGRAS : List String :=
  ["Para geração de documentos (ETP, TR, parecer), estruture a saída com seções e subseções numeradas.",
   "Cada seção deve ter fundamentação legal explícita.",
   "Inclua campos obrigatórios conforme a legislação citada."]

def FORMATO_OBRIGATORIO_TEXT : String :=
  "Sua resposta DEVE seguir exatamente esta estrutura:\n\n1. RESPOSTA DIRETA (1-3 frases objetivas)\n2. FUNDAMENTAÇÃO LEGAL (cada afirmação com [citação])\n3. OBSERVAÇÕES PRÁTICAS (somente se houver notas_especialista acima)\n4. ENTENDIMENTO DO TCU (somente se houver jurisprudencia acima)\n\nREGRA: toda frase com informação jurídica DEVE ter uma referência entre colchetes a um dispositivo de base_normativa ou contexto_normativo. Frase sem referência = frase proibida.\n\nREGRA DE HIPERLINK: ao citar um dispositivo, crie um link Markdown usando a URL correspondente em <trilha_verificavel>. Formato: [Lei 14.133/2021, Art. 33, Inc. III](evidence_url_do_dispositivo) Se o dispositivo não tem evidence_url, cite sem link."

def VERIFICACAO_FINAL_TEXT : String :=
  "Antes de enviar sua resposta, verifique:\n- Toda afirmação jurídica tem referência a um dispositivo autorizado?\n- Nenhum artigo/inciso/parágrafo citado está fora da lista autorizada?\n- Cada citação tem hiperlink Markdown para a evidence_url correspondente?\n- Se não encontrou a informação, disse explicitamente?"

-- ===========================================================================
-- Confidence and normative trail (payload.py §4.3)
-- ===========================================================================

/-- `_calculate_confidence` (payload.py): weighted average of the hit scores
with weight score², ×0.8 for fewer than 2 hits, +0.05 capped at 1 when
`scores[0] > 0.9`, clamped to [0, 1] and rounded to 4 decimals; 0.0 for no
hits or a zero total weight. -/
def calculate_confidence (r : SearchResult) : ℚ :=
  match r.hits with
  | [] => 0
  | h0 :: _ =>
    let scores := r.hits.map (·.score)
    let weights := scores.map (fun s => s * s)
    let total_weight := weights.sum
    if total_weight = 0 then 0
    else
      let c1 := ((scores.zip weights).map (fun p => p.1 * p.2)).sum / total_weight
      let c2 := if scores.length < 2 then c1 * (8/10) else c1
      let c3 := if h0.score > 9/10 then min 1 (c2 + 1/20) else c2
      pyRound 4 (min 1 (max 0 c3))

/-- Human-readable source name used by `_extract_normative_trail`. -/
def trailName (m : Metadata) : String :=
  (if m.document_type ≠ "" then strToUpper m.document_type else "DOC")
    ++ " " ++ pyOrS m.document_number "?" ++ "/"
    ++ (if m.year = 0 then "?" else toString m.year)

/-- `_extract_normative_trail`: deduplicated source names in first-seen
order (the Python `seen` set always holds exactly the trail entries, so
membership in the accumulated trail models it). -/
def extract_normative_trail (r : SearchResult) : List String :=
  r.hits.foldl
    (fun trail h =>
      let name := trailName h.metadata
      if name ∈ trail then trail else trail ++ [name])
    []

-- ===========================================================================
-- Authorized-id collection (payload.py `_collect_ids` and wrappers)
-- ===========================================================================

def evidence_url_of (chunk_id : String) : String :=
  "/api/v1/evidence/" ++ urlQuote chunk_id

/-- `s or default` where `s` is an optional string. -/
def pyOrOptS (o : Option String) (d : String) : String :=
  if pyTruthy o then o.getD "" else d

/-- `_collect_ids(hits, expanded, with_evidence=...)` (payload.py).  The
expanded elements are duck-typed in Python ("qualquer objeto com .span_id
e .chunk_id", per its docstring); here they are any type with the two
accessors.  Returns (authorized_ids, evidence_map) — the caller wrappers
project as the flag dictates. -/
def collectHitStep (with_evidence : Bool)
    (acc : List String × List (String × String)) (h : Hit) :
    List String × List (String × String) :=
  let span_id := extract_span_id h.chunk_id
  if span_id ≠ "" ∧ span_id ∉ acc.1 then
    (acc.1 ++ [span_id],
     if with_evidence ∧ pyTruthy h.chunk_id then
       acc.2 ++ [(span_id, evidence_url_of (h.chunk_id.getD ""))]
     else acc.2)
  else acc

def collectExpStep {ε : Type} (spanOf chunkOf : ε → Option String) (with_evidence : Bool)
    (acc : List String × List (String × String)) (ec : ε) :
    List String × List (String × String) :=
  if pyTruthy (spanOf ec) ∧ (spanOf ec).getD "" ∉ acc.1 then
    (acc.1 ++ [(spanOf ec).getD ""],
     if with_evidence ∧ pyTruthy (chunkOf ec) then
       acc.2 ++ [((spanOf ec).getD "", evidence_url_of ((chunkOf ec).getD ""))]
     else acc.2)
  else acc

def collect_ids {ε : Type} (hits : List Hit) (expanded : List ε)
    (spanOf : ε → Option String) (chunkOf : ε → Option String)
    (with_evidence : Bool) : List String × List (String × String) :=
  expanded.foldl (collectExpStep spanOf chunkOf with_evidence)
    (hits.foldl (collectHitStep with_evidence) ([], []))

/-- `_collect_authorized_ids(result)`: ids + evidence map from a search
result's hits and expanded chunks. -/
def collect_authorized_ids (r : SearchResult) : List String × List (String × String) :=
  collect_ids r.hits r.expanded_chunks (fun ec => some ec.span_id) (fun ec => some ec.chunk_id) true

/-- `_collect_authorized_ids_from_hits(hits, expanded)` (ids only), as the
hybrid schema path uses it on hits + graph nodes. -/
def collect_authorized_ids_from_hits (hits : List Hit) (expanded : List Hit) : List String :=
  (collect_ids hits expanded (·.span_id) (·.chunk_id) false).1

/-- `_collect_authorized_ids_from_hits_with_evidence(hits, expanded)`. -/
def collect_authorized_ids_from_hits_with_evidence (hits : List Hit) (expanded : List Hit) :
    List String × List (String × String) :=
  collect_ids hits expanded (·.span_id) (·.chunk_id) true

-- ===========================================================================
-- JSON Schema / tool-schema builders (payload.py §4.4)
-- ===========================================================================

/-- The dynamic content of the JSON-Schema wrapper `{name, strict, schema}`:
the two places the authorized-id enum appears
(`fundamentacao.items.properties.dispositivo_id.enum` and
`dispositivos_nao_utilizados.items.enum`).  The static descriptive strings
of the schema dict are constants and are not modelled.  The element type is
polymorphic because Python builds the same dict for `List[str]` (search,
hybrid) and for the lookup id list, whose entries are the raw `span_id`
attributes (`Optional[str]`). -/
structure SchemaWrapper (α : Type) where
  name : String
  strict : Bool
  dispositivo_id_enum : List α
  nao_utilizados_enum : List α
deriving Repr, DecidableEq

/-- `_build_schema_dict(authorized_ids)`. -/
def build_schema_dict {α : Type} (authorized_ids : List α) : SchemaWrapper α :=
  { name := "resposta_juridica_vectorgov"
    strict := true
    dispositivo_id_enum := authorized_ids
    nao_utilizados_enum := authorized_ids }

/-- `build_response_schema(result)` (payload.py): `None` when there are no
hits or no collectable ids; otherwise the wrapper (whose inline schema dict
equals `_build_schema_dict` on the same ids). -/
def build_response_schema (r : SearchResult) : Option (SchemaWrapper String) :=
  if r.hits = [] then none
  else if (collect_authorized_ids r).1 = [] then none
  else some (build_schema_dict (collect_authorized_ids r).1)

/-- The Anthropic tool wrapper `{name, description, input_schema}`; the
input schema is the wrapper's schema dict, carried here through its two
enum slots. -/
structure AnthropicTool (α : Type) where
  name : String
  description : String
  input_dispositivo_id_enum : List α
  input_nao_utilizados_enum : List α
deriving Repr, DecidableEq

def ANTHROPIC_TOOL_DESCRIPTION : String :=
  "Gera uma resposta jurídica fundamentada nos dispositivos legais fornecidos. Use APENAS as fontes listadas no enum de dispositivo_id."

/-- `build_anthropic_tool_schema(result)` (payload.py). -/
def build_anthropic_tool_schema (r : SearchResult) : Option (AnthropicTool String) :=
  match build_response_schema r with
  | none => none
  | some w =>
    some { name := w.name
           description := ANTHROPIC_TOOL_DESCRIPTION
           input_dispositivo_id_enum := w.dispositivo_id_enum
           input_nao_utilizados_enum := w.nao_utilizados_enum }

/-- `HybridResult.to_response_schema` (models.py): ids from direct evidence
plus graph nodes; `None` when the id list is empty. -/
def hybridToResponseSchema (r : HybridResult) : Option (SchemaWrapper String) :=
  if collect_authorized_ids_from_hits r.hits r.graph_nodes = [] then none
  else some (build_schema_dict (collect_authorized_ids_from_hits r.hits r.graph_nodes))

/-- `HybridResult.to_anthropic_tool_schema` (models.py). -/
def hybridToAnthropicToolSchema (r : HybridResult) : Option (AnthropicTool String) :=
  match hybridToResponseSchema r with
  | none => none
  | some w =>
    some { name := w.name
           description := ANTHROPIC_TOOL_DESCRIPTION
           input_dispositivo_id_enum := w.dispositivo_id_enum
           input_nao_utilizados_enum := w.nao_utilizados_enum }

/-- The id list built by `LookupResult.to_response_schema` (models.py):
the match's `span_id` unconditionally, then the parent's and each
sibling's `span_id` if not already present.  The entries are the raw
`Optional[str]` attributes. -/
def lookupAuthorizedIds (r : LookupResult) : List (Option String) :=
  let ids : List (Option String) :=
    match r.«match» with
    | some m => [m.span_id]
    | none => []
  let ids :=
    match r.parent with
    | some p => if p.span_id ∈ ids then ids else ids ++ [p.span_id]
    | none => ids
  r.siblings.foldl
    (fun ids sib => if sib.span_id ∈ ids then ids else ids ++ [sib.span_id])
    ids

/-- `LookupResult.to_response_schema` (models.py). -/
def lookupToResponseSchema (r : LookupResult) : Option (SchemaWrapper (Option String)) :=
  if lookupAuthorizedIds r = [] then none
  else some (build_schema_dict (lookupAuthorizedIds r))

/-- `LookupResult.to_anthropic_tool_schema` (models.py). -/
def lookupToAnthropicToolSchema (r : LookupResult) : Option (AnthropicTool (Option String)) :=
  match lookupToResponseSchema r with
  | none => none
  | some w =>
    some { name := w.name
           description := ANTHROPIC_TOOL_DESCRIPTION
           input_dispositivo_id_enum := w.dispositivo_id_enum
           input_nao_utilizados_enum := w.nao_utilizados_enum }

-- ===========================================================================
-- XML section builders (search)
-- ===========================================================================

/-- `_build_consulta_element` (payload.py). -/
def build_consulta_element (r : SearchResult) : XElem :=
  let interpreted : String :=
    match r.raw_response.bind (fun raw => raw.query_interpretation) with
    | some qi => qi.rewritten_query.getD r.query
    | none => r.query
  .mk "consulta" [] ""
    [.mk "query_original" [] r.query [],
     .mk "query_interpretada" [] interpreted [],
     .mk "confianca_global" [] (formatFixed 4 (calculate_confidence r)) [],
     .mk "estrategia" [] r.mode []]

/-- The `_DEVICE_MAP` of `_build_dispositivo_element` (same table as the
hybrid builder's `_DEVICE_MAP_PT`), with the identity fallback of `.get`. -/
def deviceMapLabel (dt : String) : String :=
  if dt = "article" then "artigo"
  else if dt = "paragraph" then "paragrafo"
  else if dt = "inciso" then "inciso"
  else if dt = "alinea" then "alinea"
  else dt

/-- The `tipo` attribute of a `<dispositivo>`. -/
def dispositivoTipo (m : Metadata) : String :=
  if m.device_type = some "article_consolidated" then "artigo_consolidado"
  else if pyTruthy m.device_type then deviceMapLabel (m.device_type.getD "")
  else if pyTruthy m.item then "inciso"
  else if pyTruthy m.paragraph then "paragrafo"
  else if pyTruthy m.article then "artigo"
  else "dispositivo"

/-- The text stored on a `<dispositivo>`: `hit.stitched_text or hit.text
or ""`. -/
def dispositivoText (h : Hit) : String :=
  if pyTruthy h.stitched_text then h.stitched_text.getD "" else h.text

/-- `_build_dispositivo_element` (payload.py). -/
def build_dispositivo_element (h : Hit) : XElem :=
  let m := h.metadata
  .mk "dispositivo"
    ([("id", some (extract_span_id h.chunk_id)),
      ("tipo", some (dispositivoTipo m))]
     ++ (if pyTruthy m.article then [("artigo", some (m.article.getD ""))] else [])
     ++ [("score",
          some (if m.device_type = some "article_consolidated" then "consolidado"
                else formatFixed 4 h.score))]
     ++ (if pyTruthy h.chunk_id then
           [("evidence_url", some (evidence_url_of (h.chunk_id.getD "")))]
         else [])
     ++ (match h.pure_rerank_score with
         | some s => [("score_rerank", some (formatFixed 4 s))]
         | none => [])
     ++ (if pyTruthy h.origin_type ∧ h.origin_type ≠ some "self" then
           [("origem", some "referencia_cruzada")]
           ++ (if pyTruthy h.origin_reference then
                 [("origem_ref", some (h.origin_reference.getD ""))]
               else [])
         else []))
    (dispositivoText h) []

/-- One `<fonte>` of `<base_normativa>`: group labels plus the group's
hits sorted by (score desc, canonical_start asc). -/
def build_fonte_element (g : SourceGroup) : XElem :=
  .mk "fonte"
    [("lei", some g.lei), ("tipo", some g.tipo), ("relevancia", some "direta")]
    ""
    ((sortGroupHits g.hits).map build_dispositivo_element)

/-- `<base_normativa>` over an arbitrary hit list (the search and hybrid
builders have textually identical bodies); `[]` models the omitted
section. -/
def base_normativa_for_hits (hits : List Hit) : List XElem :=
  if hits = [] then []
  else
    [.mk "base_normativa" [] ""
      ((group_hits_by_source hits).map (fun p => build_fonte_element p.2))]

/-- `_build_base_normativa_element` (payload.py). -/
def build_base_normativa_element (r : SearchResult) : List XElem :=
  base_normativa_for_hits r.hits

/-- `_build_contexto_normativo_element` (payload.py); the `x or ""`
guards are identities on the chunk's plain string fields. -/
def build_contexto_normativo_element (r : SearchResult) : XElem :=
  .mk "contexto_normativo" [] ""
    (r.expanded_chunks.map fun ec =>
      .mk "dispositivo_relacionado"
        [("id", some ec.span_id), ("lei", some ec.document_id),
         ("relacao", some ec.relacao), ("hop", some (toString ec.hop))]
        ec.text [])

/-- `_build_notas_especialista_element` / `_build_notas_especialista_for_hits`
(textually identical in payload.py). -/
def build_notas_especialista_for_hits (hits : List Hit) : List XElem :=
  let notas := hits.filter (fun h => pyTruthy h.nota_especialista)
  if notas = [] then []
  else
    [.mk "notas_especialista" [] ""
      (notas.map fun h =>
        .mk "nota" [("dispositivo_ref", some (extract_span_id h.chunk_id))]
          (h.nota_especialista.getD "") [])]

/-- `_build_jurisprudencia_element` / `_build_jurisprudencia_for_hits`. -/
def build_jurisprudencia_for_hits (hits : List Hit) : List XElem :=
  let juris := hits.filter (fun h => pyTruthy h.jurisprudencia_tcu)
  if juris = [] then []
  else
    [.mk "jurisprudencia" [] ""
      (juris.map fun h =>
        .mk "acordao"
          ([("dispositivo_ref", some (extract_span_id h.chunk_id))]
           ++ (if pyTruthy h.acordao_tcu_key then
                 [("chave", some (h.acordao_tcu_key.getD ""))] else [])
           ++ (if pyTruthy h.acordao_tcu_link then
                 [("link", some (h.acordao_tcu_link.getD ""))] else []))
          (h.jurisprudencia_tcu.getD "") [])]

/-- `_build_trilha_verificavel_element` / `_build_trilha_verificavel_for_hits`. -/
def build_trilha_verificavel_for_hits (hits : List Hit) : List XElem :=
  let hits_with_id := hits.filter (fun h => pyTruthy h.chunk_id)
  if hits_with_id = [] then []
  else
    [.mk "trilha_verificavel" [] ""
      (hits_with_id.map fun h =>
        .mk "evidencia"
          ([("dispositivo_ref", some (extract_span_id h.chunk_id)),
            ("url", some (evidence_url_of (h.chunk_id.getD "")))]
           ++ (match h.page_number with
               | some p => [("pagina", some (toString p))]
               | none => [])
           ++ (if pyTruthy h.canonical_hash then
                 [("hash", some (h.canonical_hash.getD ""))] else []))
          "" [])]

/-- `_build_metadados_element` (payload.py). -/
def build_metadados_element (r : SearchResult) : XElem :=
  let reranker :=
    match r.raw_response.bind (fun raw => raw.reranker) with
    | some b => b
    | none => true
  .mk "metadados" [] ""
    ([.mk "pipeline" [] "fenix" [],
      .mk "tempo_total_ms" [] (pyNumStr r.latency_ms) [],
      .mk "reranker" [] (pyBoolStr reranker) [],
      .mk "grafo_expandido" [] (pyBoolStr (r.expanded_chunks ≠ [])) [],
      .mk "cache_hit" [] (pyBoolStr r.cached) [],
      .mk "query_id" [] r.query_id []]
     ++ (match r.expansion_stats with
         | some es =>
           [.mk "expansao" [] ""
             [.mk "expandidos" [] (toString es.expanded_chunks_count) [],
              .mk "citacoes_encontradas" [] (toString es.citations_scanned_count) [],
              .mk "citacoes_resolvidas" [] (toString es.citations_resolved_count) [],
              .mk "tempo_ms" [] (formatFixed 0 es.expansion_time_ms) []]]
         | none => []))

-- ===========================================================================
-- Instruction blocks
-- ===========================================================================

/-- `_build_instrucoes_element` (level "instructions"). -/
def build_instrucoes_element : XElem :=
  .mk "instrucoes" [] "" (INSTRUCOES_REGRAS.map (fun t => .mk "regra" [] t []))

def papelElem : XElem := .mk "papel" [] PAPEL_TEXT []

def antiAlucinacaoElem : XElem :=
  .mk "anti_alucinacao" [] ""
    (ANTI_ALUCINACAO_REGRAS.map fun p =>
      .mk "regra" [("prioridade", some p.1)] p.2 [])

def formatoCitacaoElem : XElem :=
  .mk "formato_citacao" [] "" (FORMATO_CITACAO_REGRAS.map (fun t => .mk "regra" [] t []))

def estruturaRespostaElem : XElem :=
  .mk "estrutura_resposta" [] "" (ESTRUTURA_RESPOSTA_REGRAS.map (fun t => .mk "regra" [] t []))

def modoGeracaoElem : XElem :=
  .mk "modo_geracao_documento"
    [("condition", some "quando o usuário pedir geração de documento")] ""
    (MODO_GERACAO_DOC_REGRAS.map (fun t => .mk "regra" [] t []))

/-- `_build_contrato_resposta` (payload.py): the dynamic response
contract — whitelist and evidence map. -/
def build_contrato_resposta_children
    (idsAndMap : List String × List (String × String)) : List XElem :=
  [XElem.mk "formato_obrigatorio" [] FORMATO_OBRIGATORIO_TEXT []]
  ++ (if idsAndMap.1 ≠ [] then
        [XElem.mk "dispositivos_autorizados" []
          ("Você SÓ pode citar os seguintes IDs. Qualquer outro é alucinação:\n"
            ++ String.intercalate ", " idsAndMap.1) []]
      else [])
  ++ (if idsAndMap.2 ≠ [] then
        [XElem.mk "mapa_evidencias" []
          (String.intercalate "\n"
            (idsAndMap.2.map (fun p => p.1 ++ " → " ++ p.2))) []]
      else [])
  ++ [XElem.mk "verificacao_final" [] VERIFICACAO_FINAL_TEXT []]

/-- `_build_instrucoes_completas_element` (level "full", search). -/
def build_instrucoes_completas_element (r : SearchResult) : XElem :=
  .mk "instrucoes_completas" [] ""
    [papelElem, antiAlucinacaoElem, formatoCitacaoElem, estruturaRespostaElem,
     modoGeracaoElem,
     .mk "contrato_resposta" [] ""
       (build_contrato_resposta_children (collect_authorized_ids r))]

-- ===========================================================================
-- build_xml (search entry point)
-- ===========================================================================

inductive PyError where
  | valueError (msg : String)
  | typeError (msg : String)
deriving Repr, DecidableEq

def VALID_LEVELS : List String := ["data", "instructions", "full"]

/-- The message of the `ValueError` raised on an invalid level,
`f"level inválido: {level!r}. Use 'data', 'instructions' ou 'full'."`
(`repr` of a quote-free string shown with plain single quotes). -/
def invalid_level_msg (level : String) : String :=
  "level inválido: \x27" ++ level ++ "\x27. Use \x27data\x27, \x27instructions\x27 ou \x27full\x27."

/-- The XML tree of `build_xml` for a valid level. -/
def buildXmlTree (r : SearchResult) (level : String) : XElem :=
  .mk "vectorgov_knowledge_package"
    [("version", some "1.0"), ("level", some level)] ""
    ((if level = "instructions" then [build_instrucoes_element]
      else if level = "full" then [build_instrucoes_completas_element r]
      else [])
     ++ [build_consulta_element r]
     ++ build_base_normativa_element r
     ++ (if r.expanded_chunks ≠ [] then [build_contexto_normativo_element r] else [])
     ++ build_notas_especialista_for_hits r.hits
     ++ build_jurisprudencia_for_hits r.hits
     ++ build_trilha_verificavel_for_hits r.hits
     ++ [build_metadados_element r])

/-- `build_xml(result, level)` (payload.py): the level is validated before
anything is built, so an invalid level produces only the error. -/
def build_xml (r : SearchResult) (level : String) : Except PyError String :=
  if level ∉ VALID_LEVELS then .error (.valueError (invalid_level_msg level))
  else .ok (serElem (buildXmlTree r level))

-- ===========================================================================
-- Hybrid XML builders
-- ===========================================================================

/-- `str()` of an optional int attribute (`str(hit.hop)`; Python renders
`None` as `"None"`). -/
def pyOptIntStr (o : Option ℤ) : String :=
  match o with
  | some n => toString n
  | none => "None"

/-- `_build_hybrid_consulta_element` (payload.py). -/
def build_hybrid_consulta_element (r : HybridResult) : XElem :=
  let interpreted : String :=
    if r.query_rewrite_active ∧ pyTruthy r.query_rewrite_clean_query then
      r.query_rewrite_clean_query.getD ""
    else r.query
  let estrategia : String :=
    (r.mode ++ (if r.dual_lane_active then ":dual_lane" else ""))
    ++ (if pyTruthy r.docfilter_detected_doc_id then
          " (doc_foco=" ++ r.docfilter_detected_doc_id.getD "" ++ ")"
        else "")
  .mk "consulta"
    (if pyTruthy r.docfilter_detected_doc_id then
       [("doc_foco", some (r.docfilter_detected_doc_id.getD ""))]
     else [])
    ""
    [.mk "query_original" [] r.query [],
     .mk "query_interpretada" [] interpreted [],
     .mk "confianca_global" [] (formatFixed 4 r.confidence) [],
     .mk "estrategia" [] estrategia []]

/-- `_build_hybrid_contexto_normativo_element` (payload.py): graph nodes
with hop/freq, the device-type label, and no provenance attribute. -/
def build_hybrid_contexto_normativo_element (r : HybridResult) : XElem :=
  .mk "contexto_normativo" [] ""
    (r.graph_nodes.map fun h =>
      .mk "dispositivo_relacionado"
        ([("id", some (pyOrOptS h.span_id "")),
          ("lei", some (pyOrOptS h.document_id ""))]
         ++ (if pyTruthy h.device_type then
               [("tipo", some (deviceMapLabel (h.device_type.getD "")))]
             else [])
         ++ [("hop", some (pyOptIntStr h.hop))]
         ++ (match h.frequency with
             | some n => if n ≠ 0 then [("freq", some (toString n))] else []
             | none => []))
        h.text [])

/-- `_build_hybrid_metadados_element` (payload.py).  `result.stats` is a raw
dict; an absent/falsy dict is `none` here. -/
def build_hybrid_metadados_element (r : HybridResult) : XElem :=
  .mk "metadados" [] ""
    ([.mk "pipeline" [] "fenix" [],
      .mk "tempo_total_ms" [] (toString (pyIntTrunc r.latency_ms)) []]
     ++ (match r.stats with
         | some st =>
           (let t := st.timings.getD {}
            (match t.search_ms with
             | some v => [XElem.mk "tempo_busca_ms" [] (toString (pyIntTrunc v)) []]
             | none => [])
            ++ (match t.rerank_ms with
                | some v => [XElem.mk "tempo_rerank_ms" [] (toString (pyIntTrunc v)) []]
                | none => [])
            ++ (match t.graph_ms with
                | some v => [XElem.mk "tempo_grafo_ms" [] (toString (pyIntTrunc v)) []]
                | none => []))
           ++ (match st.seeds_count.orElse (fun _ => st.hits_milvus) with
               | some v => [XElem.mk "hits_milvus" [] (toString v) []]
               | none => [])
           ++ (match st.graph_nodes with
               | some v => [XElem.mk "nodes_grafo" [] (toString v) []]
               | none => [])
           ++ (match st.total_chunks with
               | some v => [XElem.mk "total_chunks" [] (toString v) []]
               | none => [])
           ++ (match st.total_tokens with
               | some v => [XElem.mk "total_tokens" [] (toString v) []]
               | none => [])
         | none => [])
     ++ [.mk "reranker" [] "true" [],
         .mk "hyde" [] (pyBoolStr r.hyde_used) [],
         .mk "grafo_expandido" [] (pyBoolStr (r.graph_nodes ≠ [])) [],
         .mk "cache_hit" [] (pyBoolStr r.cached) []])

/-- `_build_instrucoes_completas_for_hybrid` (payload.py). -/
def build_instrucoes_completas_for_hybrid (r : HybridResult) : XElem :=
  .mk "instrucoes_completas" [] ""
    [papelElem, antiAlucinacaoElem, formatoCitacaoElem, estruturaRespostaElem,
     modoGeracaoElem,
     .mk "contrato_resposta" [] ""
       (build_contrato_resposta_children
         (collect_authorized_ids_from_hits_with_evidence r.hits r.graph_nodes))]

/-- The XML tree of `build_hybrid_xml` for a valid level. -/
def buildHybridXmlTree (r : HybridResult) (level : String) : XElem :=
  .mk "vectorgov_knowledge_package"
    [("version", some "1.0"), ("level", some level), ("endpoint", some "hybrid")] ""
    ((if level = "instructions" then [build_instrucoes_element]
      else if level = "full" then [build_instrucoes_completas_for_hybrid r]
      else [])
     ++ [build_hybrid_consulta_element r]
     ++ base_normativa_for_hits r.hits
     ++ (if r.graph_nodes ≠ [] then [build_hybrid_contexto_normativo_element r] else [])
     ++ build_notas_especialista_for_hits r.hits
     ++ build_jurisprudencia_for_hits r.hits
     ++ build_trilha_verificavel_for_hits r.hits
     ++ [build_hybrid_metadados_element r])

/-- `build_hybrid_xml(result, level)` (payload.py). -/
def build_hybrid_xml (r : HybridResult) (level : String) : Except PyError String :=
  if level ∉ VALID_LEVELS then .error (.valueError (invalid_level_msg level))
  else .ok (serElem (buildHybridXmlTree r level))

-- ===========================================================================
-- Lookup XML builder
-- ===========================================================================

/-- The id list of the lookup response contract in
`_build_lookup_instrucoes_completas` (the match's and parent's span_id are
appended without a membership check, unlike `to_response_schema`). -/
def lookupContractIds (m : Hit) (r : LookupResult) : List (Option String) :=
  let ids : List (Option String) := [m.span_id]
  let ids :=
    match r.parent with
    | some p => ids ++ [p.span_id]
    | none => ids
  r.siblings.foldl
    (fun ids sib => if sib.span_id ∈ ids then ids else ids ++ [sib.span_id])
    ids

/-- Rendering of an optional string inside `", ".join(ids)`; a `None`
span_id would make the Python join raise — the parsers always supply
strings, and no claim depends on this text. -/
def optIdStr (o : Option String) : String := o.getD ""

/-- `_build_lookup_instrucoes_completas` (payload.py). -/
def build_lookup_instrucoes_completas (r : LookupResult) : XElem :=
  .mk "instrucoes_completas" [] ""
    ([papelElem, antiAlucinacaoElem]
     ++ (match r.«match» with
         | some m =>
           [XElem.mk "contrato_resposta" [] ""
             [XElem.mk "dispositivos_autorizados" []
               ("Você SÓ pode citar os seguintes IDs:\n"
                 ++ String.intercalate ", " ((lookupContractIds m r).map optIdStr)) []]]
         | none => [])
     ++ [XElem.mk "verificacao_final" [] VERIFICACAO_FINAL_TEXT []])

/-- The `<referencia_resolvida>` attributes (each set only when truthy). -/
def resolvedElem (res : LookupResolved) : XElem :=
  .mk "referencia_resolvida"
    ((if pyTruthy res.device_type then [("device_type", res.device_type)] else [])
     ++ (if pyTruthy res.article_number then [("artigo", res.article_number)] else [])
     ++ (if pyTruthy res.paragraph_number then [("paragrafo", res.paragraph_number)] else [])
     ++ (if pyTruthy res.inciso_number then [("inciso", res.inciso_number)] else [])
     ++ (if pyTruthy res.alinea_letter then [("alinea", res.alinea_letter)] else [])
     ++ (if pyTruthy res.resolved_document_id then [("documento", res.resolved_document_id)] else [])
     ++ (if pyTruthy res.resolved_span_id then [("span_id", res.resolved_span_id)] else []))
    "" []

def artigoPaiElem (p : Hit) : XElem :=
  .mk "artigo_pai" [("id", p.span_id), ("device_type", p.device_type)] p.text []

def dispositivoPrincipalElem (m : Hit) : XElem :=
  .mk "dispositivo_principal"
    ([("id", m.span_id), ("tipo", m.device_type)]
     ++ (if pyTruthy m.article_number then [("artigo", m.article_number)] else []))
    m.text []

def irmaoElem (sib : Hit) : XElem :=
  .mk "irmao"
    [("id", sib.span_id), ("tipo", sib.device_type),
     ("atual", some (pyBoolStr sib.is_current))]
    sib.text []

/-- The `<hierarquia_normativa>` block, present only when the status is
"found" and there is a match. -/
def hierarquiaBlock (r : LookupResult) : List XElem :=
  if r.status = "found" then
    match r.«match» with
    | some m =>
      [XElem.mk "hierarquia_normativa" [] ""
        ((match r.parent with
          | some p => [artigoPaiElem p]
          | none => [])
         ++ [dispositivoPrincipalElem m]
         ++ (if r.siblings ≠ [] then
               [XElem.mk "dispositivos_irmaos" [] "" (r.siblings.map irmaoElem)]
             else []))]
    | none => []
  else []

/-- The `<candidatos>` block (only for an ambiguous status with candidates). -/
def candidatosBlock (r : LookupResult) : List XElem :=
  if r.status = "ambiguous" ∧ r.candidates ≠ [] then
    [XElem.mk "candidatos" [] ""
      (r.candidates.map fun cand =>
        XElem.mk "candidato"
          ([("document_id", some cand.document_id), ("node_id", some cand.node_id)]
           ++ (if pyTruthy cand.tipo_documento then
                 [("tipo_documento", cand.tipo_documento)] else []))
          cand.text [])]
  else []

/-- The XML tree of `build_lookup_xml` for a valid level. -/
def buildLookupXmlTree (r : LookupResult) (level : String) : XElem :=
  .mk "vectorgov_knowledge_package"
    [("version", some "1.0"), ("level", some level), ("endpoint", some "lookup")] ""
    ((if level = "instructions" then [build_instrucoes_element]
      else if level = "full" then [build_lookup_instrucoes_completas r]
      else [])
     ++ [XElem.mk "consulta" [] ""
          ([XElem.mk "referencia_original" [] r.query [],
            XElem.mk "status" [] r.status []]
           ++ (match r.resolved with
               | some res => [resolvedElem res]
               | none => []))]
     ++ hierarquiaBlock r
     ++ candidatosBlock r
     ++ [XElem.mk "metadados" [] ""
          [XElem.mk "pipeline" [] "fenix" [],
           XElem.mk "tempo_total_ms" [] (toString (pyIntTrunc r.latency_ms)) []]])

/-- `build_lookup_xml(result, level)` (payload.py). -/
def build_lookup_xml (r : LookupResult) (level : String) : Except PyError String :=
  if level ∉ VALID_LEVELS then .error (.valueError (invalid_level_msg level))
  else .ok (serElem (buildLookupXmlTree r level))

-- ===========================================================================
-- serialize_to_xml dispatch
-- ===========================================================================

/-- An arbitrary Python object handed to `serialize_to_xml`: one of the
three recognized result kinds, or any other object carrying only its type
name (`type(result).__name__`). -/
inductive AnyResult where
  | search (r : SearchResult)
  | hybrid (r : HybridResult)
  | lookup (r : LookupResult)
  | other (typeName : String)

/-- The `TypeError` message of the dispatch entry point. -/
def unsupported_type_msg (typeName : String) : String :=
  "Tipo não suportado: " ++ typeName ++ ". Use SearchResult, HybridResult ou LookupResult."

/-- `serialize_to_xml(result, level)` (payload.py): isinstance dispatch in
source order (hybrid, lookup, search), else a `TypeError`. -/
def serialize_to_xml (result : AnyResult) (level : String) : Except PyError String :=
  match result with
  | .hybrid r => build_hybrid_xml r level
  | .lookup r => build_lookup_xml r level
  | .search r => build_xml r level
  | .other t => .error (.typeError (unsupported_type_msg t))

-- ===========================================================================
-- build_markdown (search)
-- ===========================================================================

/-- The per-hit lines of `build_markdown`. -/
def markdownHitParts (i : Nat) (h : Hit) : List String :=
  ["### [" ++ toString (i + 1) ++ "] " ++ h.source
     ++ " (score: " ++ formatFixed 3 h.score ++ ")\n",
   h.text ++ "\n"]
  ++ (if pyTruthy h.nota_especialista then
        ["> **Nota do Especialista:** " ++ h.nota_especialista.getD "" ++ "\n"]
      else [])
  ++ (if pyTruthy h.jurisprudencia_tcu then
        ["> **Jurisprudência TCU:** " ++ h.jurisprudencia_tcu.getD ""]
        ++ (if pyTruthy h.acordao_tcu_link then
              [" ([link](" ++ h.acordao_tcu_link.getD "" ++ "))"]
            else [])
        ++ ["\n"]
      else [])

/-- The per-expanded-chunk lines of `build_markdown`. -/
def markdownExpandedParts (j : Nat) (ec : ExpandedChunk) : List String :=
  ["### [XC-" ++ toString (j + 1) ++ "] " ++ ec.document_id ++ ", " ++ ec.span_id ++ "\n",
   "- **Citado por:** " ++ pyOrS ec.source_chunk_id "(origem não informada)" ++ "\n"]
  ++ (if ec.source_citation_raw ≠ "" then
        ["- **Citação original:** " ++ ec.source_citation_raw ++ "\n"]
      else [])
  ++ ["\n" ++ ec.text ++ "\n"]

/-- `build_markdown(result)` (payload.py). -/
def build_markdown (r : SearchResult) : String :=
  let header : List String :=
    ["# Resultados para: " ++ r.query ++ "\n",
     "**Modo:** " ++ r.mode ++ " | **Latência:** " ++ pyNumStr r.latency_ms
       ++ "ms | **Cache:** " ++ (if r.cached then "sim" else "não") ++ "\n"]
  if r.hits = [] then
    String.intercalate "\n" (header ++ ["_Nenhum resultado encontrado._\n"])
  else
    let hitParts := (r.hits.enum.map (fun p => markdownHitParts p.1 p.2)).flatten
    let expParts :=
      if r.expanded_chunks ≠ [] then
        ["## Trechos Citados (expansão por citação)\n"]
        ++ (r.expanded_chunks.enum.map (fun p => markdownExpandedParts p.1 p.2)).flatten
      else []
    let statsParts :=
      match r.expansion_stats with
      | some s =>
        ["\n---\n_Expansão: " ++ toString s.expanded_chunks_count ++ " expandidos, "
          ++ toString s.citations_scanned_count ++ " encontradas, "
          ++ toString s.citations_resolved_count ++ " resolvidas, "
          ++ formatFixed 0 s.expansion_time_ms ++ "ms_\n"]
      | none => []
    String.intercalate "\n"
      (header ++ ["## Dispositivos\n"] ++ hitParts ++ expParts ++ statsParts)

-- ===========================================================================
-- The static-scaffolding cache (_XML_CACHE / _get_xml_base)
-- ===========================================================================

/-- `_build_xml_base(level)`: the static instruction scaffolding under a
`_base` element (the dynamic response contract is not part of it). -/
def build_xml_base (level : String) : String :=
  serElem (.mk "_base" [] ""
    (if level = "instructions" then [build_instrucoes_element]
     else if level = "full" then
       [.mk "instrucoes_completas" [] ""
         [papelElem, antiAlucinacaoElem, formatoCitacaoElem,
          estruturaRespostaElem, modoGeracaoElem]]
     else []))

/-- The module-level `_XML_CACHE` dict, threaded explicitly. -/
abbrev XmlCache := List (String × String)

/-- `_get_xml_base(level)`: return the cached string, populating the cache
on a miss. -/
def get_xml_base (level : String) (cache : XmlCache) : String × XmlCache :=
  match cache.lookup level with
  | some s => (s, cache)
  | none => (build_xml_base level, (level, build_xml_base level) :: cache)

-- ===========================================================================
-- Lemmas: escaping and entity decoding
-- ===========================================================================

theorem replaceChar_cons (c : Char) (rep : List Char) (x : Char) (l : List Char) :
    replaceChar c rep (x :: l) = (if x = c then rep else [x]) ++ replaceChar c rep l := by
  simp [replaceChar]

theorem replaceChar_append (c : Char) (rep : List Char) (a b : List Char) :
    replaceChar c rep (a ++ b) = replaceChar c rep a ++ replaceChar c rep b := by
  simp [replaceChar]

/-- The sequential sax replacements act character-wise. -/
theorem saxEscape_eq_charwise : ∀ l : List Char, saxEscape l = (l.map escapeXmlChar).flatten := by
  intro l
  induction l with
  | nil => rfl
  | cons x l ih =>
    show replaceChar '"' _ (replaceChar '<' _ (replaceChar '>' _ (replaceChar '&' _ (x :: l)))) = _
    rw [replaceChar_cons, replaceChar_append, replaceChar_append, replaceChar_append]
    have hx : replaceChar '"' "&quot;".data (replaceChar '<' "&lt;".data
        (replaceChar '>' "&gt;".data (if x = '&' then "&amp;".data else [x])))
        = escapeXmlChar x := by
      by_cases h1 : x = '&'
      · subst h1; decide
      · by_cases h2 : x = '<'
        · subst h2; decide
        · by_cases h3 : x = '>'
          · subst h3; decide
          · by_cases h4 : x = '"'
            · subst h4; decide
            · simp [h1, h2, h3, h4, replaceChar, escapeXmlChar]
    rw [hx]
    show _ ++ saxEscape l = _
    rw [ih]
    simp

theorem decode_amp (cs : List Char) :
    decodeEntities ('&' :: 'a' :: 'm' :: 'p' :: ';' :: cs) = '&' :: decodeEntities cs := by
  simp [decodeEntities]

theorem decode_lt (cs : List Char) :
    decodeEntities ('&' :: 'l' :: 't' :: ';' :: cs) = '<' :: decodeEntities cs := by
  simp [decodeEntities]

theorem decode_gt (cs : List Char) :
    decodeEntities ('&' :: 'g' :: 't' :: ';' :: cs) = '>' :: decodeEntities cs := by
  simp [decodeEntities]

theorem decode_quot (cs : List Char) :
    decodeEntities ('&' :: 'q' :: 'u' :: 'o' :: 't' :: ';' :: cs) = '"' :: decodeEntities cs := by
  simp [decodeEntities]

theorem decode_cons_ne (c : Char) (cs : List Char) (h : c ≠ '&') :
    decodeEntities (c :: cs) = c :: decodeEntities cs := by
  simp [decodeEntities, h]

/-- Decoding inverts the full four-entity escape on every string. -/
theorem decode_escapeXml_charwise : ∀ l : List Char,
    decodeEntities ((l.map escapeXmlChar).flatten) = l := by
  intro l
  induction l with
  | nil => rfl
  | cons x l ih =>
    rw [List.map_cons, List.flatten_cons]
    by_cases h1 : x = '&'
    · subst h1
      show decodeEntities ('&' :: 'a' :: 'm' :: 'p' :: ';' :: _) = _
      rw [decode_amp]; simp only [List.append_eq, List.nil_append]; rw [ih]
    · by_cases h2 : x = '<'
      · subst h2
        show decodeEntities ('&' :: 'l' :: 't' :: ';' :: _) = _
        rw [decode_lt]; simp only [List.append_eq, List.nil_append]; rw [ih]
      · by_cases h3 : x = '>'
        · subst h3
          show decodeEntities ('&' :: 'g' :: 't' :: ';' :: _) = _
          rw [decode_gt]; simp only [List.append_eq, List.nil_append]; rw [ih]
        · by_cases h4 : x = '"'
          · subst h4
            show decodeEntities ('&' :: 'q' :: 'u' :: 'o' :: 't' :: ';' :: _) = _
            rw [decode_quot]; simp only [List.append_eq, List.nil_append]; rw [ih]
          · have hx : escapeXmlChar x = [x] := by simp [escapeXmlChar, h1, h2, h3, h4]
            rw [hx]
            show decodeEntities (x :: _) = _
            rw [decode_cons_ne x _ h1]; simp only [List.append_eq, List.nil_append]; rw [ih]

/-- Decoding inverts the text-content escape (`&`, `<`, `>`) on every string. -/
theorem decode_escCdata : ∀ l : List Char, decodeEntities (escCdata l) = l := by
  intro l
  induction l with
  | nil => rfl
  | cons x l ih =>
    show decodeEntities (escCdataChar x ++ (l.map escCdataChar).flatten) = _
    by_cases h1 : x = '&'
    · subst h1
      show decodeEntities ('&' :: 'a' :: 'm' :: 'p' :: ';' :: _) = _
      rw [decode_amp]; exact congrArg _ ih
    · by_cases h2 : x = '<'
      · subst h2
        show decodeEntities ('&' :: 'l' :: 't' :: ';' :: _) = _
        rw [decode_lt]; exact congrArg _ ih
      · by_cases h3 : x = '>'
        · subst h3
          show decodeEntities ('&' :: 'g' :: 't' :: ';' :: _) = _
          rw [decode_gt]; exact congrArg _ ih
        · have hx : escCdataChar x = [x] := by simp [escCdataChar, h1, h2, h3]
          rw [hx]
          show decodeEntities (x :: _) = _
          rw [decode_cons_ne x _ h1]; exact congrArg _ ih

theorem twf_amp (cs : List Char) :
    textWellFormed ('&' :: 'a' :: 'm' :: 'p' :: ';' :: cs) = textWellFormed cs := by
  simp [textWellFormed]

theorem twf_lt_ent (cs : List Char) :
    textWellFormed ('&' :: 'l' :: 't' :: ';' :: cs) = textWellFormed cs := by
  simp [textWellFormed]

theorem twf_gt_ent (cs : List Char) :
    textWellFormed ('&' :: 'g' :: 't' :: ';' :: cs) = textWellFormed cs := by
  simp [textWellFormed]

theorem twf_cons_ne (c : Char) (cs : List Char) (h1 : c ≠ '&') (h2 : c ≠ '<') :
    textWellFormed (c :: cs) = textWellFormed cs := by
  simp [textWellFormed, h1, h2]

/-- The text-content escape always produces parser-acceptable text. -/
theorem escCdata_wellFormed : ∀ l : List Char, textWellFormed (escCdata l) = true := by
  intro l
  induction l with
  | nil => rfl
  | cons x l ih =>
    show textWellFormed (escCdataChar x ++ (l.map escCdataChar).flatten) = true
    by_cases h1 : x = '&'
    · subst h1
      show textWellFormed ('&' :: 'a' :: 'm' :: 'p' :: ';' :: _) = true
      rw [twf_amp]; exact ih
    · by_cases h2 : x = '<'
      · subst h2
        show textWellFormed ('&' :: 'l' :: 't' :: ';' :: _) = true
        rw [twf_lt_ent]; exact ih
      · by_cases h3 : x = '>'
        · subst h3
          show textWellFormed ('&' :: 'g' :: 't' :: ';' :: _) = true
          rw [twf_gt_ent]; exact ih
        · have hx : escCdataChar x = [x] := by simp [escCdataChar, h1, h2, h3]
          rw [hx]
          show textWellFormed (x :: _) = true
          rw [twf_cons_ne x _ h1 h2]; exact ih

/-- Decoding inverts `escape_xml` on every input string. -/
theorem decode_escape_xml (s : String) :
    decodeEntities (escape_xml (some s)).data = s.data := by
  by_cases hs : s = ""
  · subst hs; rfl
  · show decodeEntities (if s = "" then "" else (⟨saxEscape s.data⟩ : String)).data = s.data
    rw [if_neg hs]
    show decodeEntities (saxEscape s.data) = s.data
    rw [saxEscape_eq_charwise, decode_escapeXml_charwise]

-- ===========================================================================
-- C2 — escape_xml
-- ===========================================================================

/-- C2 (counterexample): the claim asserts that one application of
`escape_xml` never turns an input substring `"&amp;"` into `"&amp;amp;"`;
but `escape_xml` (via `saxutils.escape`) replaces every `&`, so the input
`"&amp;"` becomes exactly `"&amp;amp;"`. -/
theorem c2_counterexample : escape_xml (some "&amp;") = "&amp;amp;" := by decide

/-- C2 (amended): `escape_xml` maps `&`, `<`, `>`, `"` to their XML
entities character-wise, returns `""` for `None` or empty input, and
escapes every ampersand exactly once in a single pass — an input substring
`"&amp;"` does become `"&amp;amp;"`, but the escape is lossless (decoding
the four entities of the output recovers the input exactly), and on the
repository test's input `"Art. 4&ordm; da IN 65/2021"` the output is
`"Art. 4&amp;ordm; da IN 65/2021"`, with no `"&amp;amp;"`. -/
theorem c2_escape_xml :
    escape_xml none = ""
    ∧ escape_xml (some "") = ""
    ∧ (∀ s : String, escape_xml (some s) = ⟨(s.data.map escapeXmlChar).flatten⟩)
    ∧ escape_xml (some "&") = "&amp;"
    ∧ escape_xml (some "<") = "&lt;"
    ∧ escape_xml (some ">") = "&gt;"
    ∧ escape_xml (some "\"") = "&quot;"
    ∧ (∀ s : String, decodeEntities (escape_xml (some s)).data = s.data)
    ∧ escape_xml (some "&amp;") = "&amp;amp;"
    ∧ escape_xml (some "Art. 4&ordm; da IN 65/2021") = "Art. 4&amp;ordm; da IN 65/2021" := by
  refine ⟨rfl, rfl, ?_, by decide, by decide, by decide, by decide, decode_escape_xml, by decide, by decide⟩
  intro s
  by_cases hs : s = ""
  · subst hs; rfl
  · show (if s = "" then "" else (⟨saxEscape s.data⟩ : String)) = _
    rw [if_neg hs, saxEscape_eq_charwise]

-- ===========================================================================
-- Lemmas: group coverage (every hit lands in some source group)
-- ===========================================================================

theorem insertHit_mem_self : ∀ (acc : List (String × SourceGroup)) (key : String) (x : Hit),
    ∃ kg ∈ insertHit acc key x, x ∈ kg.2.hits := by
  intro acc key x
  induction acc with
  | nil => exact ⟨(key, mkGroup x), by simp [insertHit], by simp [mkGroup]⟩
  | cons p rest ih =>
    obtain ⟨k, g⟩ := p
    by_cases hk : k = key
    · refine ⟨(k, { g with hits := g.hits ++ [x] }), ?_, by simp⟩
      simp [insertHit, hk]
    · obtain ⟨kg, hkg, hx⟩ := ih
      exact ⟨kg, by simp [insertHit, hk]; exact Or.inr hkg, hx⟩

theorem insertHit_mem_mono : ∀ (acc : List (String × SourceGroup)) (key : String) (x : Hit)
    (kg : String × SourceGroup), kg ∈ acc → ∀ h : Hit, h ∈ kg.2.hits →
    ∃ kg' ∈ insertHit acc key x, h ∈ kg'.2.hits := by
  intro acc key x
  induction acc with
  | nil => intro kg hkg; exact absurd hkg (List.not_mem_nil kg)
  | cons p rest ih =>
    intro kg hkg h hh
    obtain ⟨k, g⟩ := p
    by_cases hk : k = key
    · rcases List.mem_cons.mp hkg with heq | htail
      · subst heq
        refine ⟨(k, { g with hits := g.hits ++ [x] }), ?_, ?_⟩
        · simp [insertHit, hk]
        · simp; exact Or.inl hh
      · exact ⟨kg, by simp [insertHit, hk]; exact Or.inr htail, hh⟩
    · rcases List.mem_cons.mp hkg with heq | htail
      · refine ⟨(k, g), by simp [insertHit, hk], ?_⟩
        rw [← heq]; exact hh
      · obtain ⟨kg', hkg', hh'⟩ := ih kg htail h hh
        exact ⟨kg', by simp [insertHit, hk]; exact Or.inr hkg', hh'⟩

theorem groupHitsAux_cover : ∀ (l : List Hit) (acc : List (String × SourceGroup)) (h : Hit),
    (h ∈ l ∨ ∃ kg ∈ acc, h ∈ kg.2.hits) →
    ∃ kg ∈ groupHitsAux acc l, h ∈ kg.2.hits := by
  intro l
  induction l with
  | nil =>
    intro acc h hcase
    rcases hcase with hl | hacc
    · exact absurd hl (List.not_mem_nil h)
    · exact hacc
  | cons x t ih =>
    intro acc h hcase
    show ∃ kg ∈ groupHitsAux (insertHit acc (sourceKey x) x) t, h ∈ kg.2.hits
    rcases hcase with hl | ⟨kg, hkg, hh⟩
    · rcases List.mem_cons.mp hl with heq | htail
      · obtain ⟨kg, hkg, hx⟩ := insertHit_mem_self acc (sourceKey x) x
        exact ih _ h (Or.inr ⟨kg, hkg, by rw [heq]; exact hx⟩)
      · exact ih _ h (Or.inl htail)
    · exact ih _ h (Or.inr (insertHit_mem_mono acc (sourceKey x) x kg hkg h hh))

/-- Every hit of the input appears in the hit list of some group. -/
theorem group_hits_cover (hits : List Hit) (h : Hit) (hm : h ∈ hits) :
    ∃ kg ∈ group_hits_by_source hits, h ∈ kg.2.hits :=
  groupHitsAux_cover hits [] h (Or.inl hm)

-- ===========================================================================
-- C8 — escape-then-parse identity on the hit text
-- ===========================================================================

/-- The text carried by the claim: `&`, `<`, `>` or `"` occurs in it. -/
def containsSpecial (s : String) : Prop :=
  '&' ∈ s.data ∨ '<' ∈ s.data ∨ '>' ∈ s.data ∨ '"' ∈ s.data

instance (s : String) : Decidable (containsSpecial s) := by
  unfold containsSpecial; infer_instance

/-- C8: for every hit of a search result whose displayed text (stitched
text when present, otherwise the raw text) contains `&`, `<`, `>` or `"`,
the `<dispositivo>` element that `build_xml`'s pipeline builds for it
carries exactly that text; its serialized form (`ET.tostring` escapes text
content with `escCdata`) is parser-acceptable, and decoding it recovers
the original unescaped string exactly. -/
theorem c8_escape_roundtrip (r : SearchResult) (h : Hit) (hmem : h ∈ r.hits)
    (_hs : containsSpecial (dispositivoText h)) :
    ∃ kg ∈ group_hits_by_source r.hits,
      ∃ d ∈ (build_fonte_element kg.2).children,
        d.text = dispositivoText h
        ∧ decodeEntities (escCdata d.text.data) = (dispositivoText h).data
        ∧ textWellFormed (escCdata d.text.data) = true := by
  obtain ⟨kg, hkg, hmem'⟩ := group_hits_cover r.hits h hmem
  refine ⟨kg, hkg, build_dispositivo_element h, ?_, rfl, ?_, ?_⟩
  · show build_dispositivo_element h ∈ (sortGroupHits kg.2.hits).map build_dispositivo_element
    exact List.mem_map_of_mem _ (by simpa [sortGroupHits] using hmem')
  · exact decode_escCdata _
  · exact escCdata_wellFormed _

def c8Hit : Hit :=
  { text := "Art. 5º — \"Seção\" <especial> & obrigatória"
    score := 9/10
    source := "Lei 14.133/2021, Art. 5"
    metadata := { document_type := "lei", document_number := "14133", year := 2021 }
    chunk_id := some "LEI-14133-2021#ART-5" }

def c8Result : SearchResult := { query := "q", hits := [c8Hit] }

theorem c8_witness :
    (c8Hit ∈ c8Result.hits ∧ containsSpecial (dispositivoText c8Hit))
    ∧ (∃ kg ∈ group_hits_by_source c8Result.hits,
        ∃ d ∈ (build_fonte_element kg.2).children,
          d.text = dispositivoText c8Hit
          ∧ decodeEntities (escCdata d.text.data) = (dispositivoText c8Hit).data
          ∧ textWellFormed (escCdata d.text.data) = true) :=
  ⟨⟨List.mem_singleton.mpr rfl, by decide⟩,
   c8_escape_roundtrip c8Result c8Hit (List.mem_singleton.mpr rfl) (by decide)⟩

-- ===========================================================================
-- C4 — confidence
-- ===========================================================================

/-- Clamp to [0, 1] as written in the source (`min(1.0, max(0.0, c))`). -/
def clamp01 (q : ℚ) : ℚ := min 1 (max 0 q)

/-- The spec's weighted average: `Σ(score·score²) / Σ(score²)`. -/
def specWeightedAverage (scores : List ℚ) : ℚ :=
  (scores.map (fun s => s * (s * s))).sum / (scores.map (fun s => s * s)).sum

/-- The spec's thin-evidence penalty: ×0.8 for fewer than 2 hits. -/
def specPenalty (numHits : ℕ) (c : ℚ) : ℚ := if numHits < 2 then c * (8/10) else c

/-- The spec's strong-top-hit bonus: +0.05 when the first score exceeds 0.9. -/
def specBonus (topScore : ℚ) (c : ℚ) : ℚ := if topScore > 9/10 then c + 1/20 else c

theorem sum_sq_eq_zero_iff (l : List ℚ) :
    (l.map (fun s => s * s)).sum = 0 ↔ ∀ s ∈ l, s = 0 := by
  induction l with
  | nil => simp
  | cons x t ih =>
    simp only [List.map_cons, List.sum_cons, List.mem_cons]
    constructor
    · intro h
      have hx : 0 ≤ x * x := mul_self_nonneg x
      have ht : 0 ≤ (t.map (fun s => s * s)).sum :=
        List.sum_nonneg (by
          intro a ha
          obtain ⟨s, _, rfl⟩ := List.mem_map.mp ha
          exact mul_self_nonneg s)
      have hx0 : x * x = 0 := by linarith
      have ht0 : (t.map (fun s => s * s)).sum = 0 := by linarith
      intro s hs
      rcases hs with rfl | hs
      · exact mul_self_eq_zero.mp hx0
      · exact (ih.mp ht0) s hs
    · intro h
      have hx : x = 0 := h x (Or.inl rfl)
      have ht : (t.map (fun s => s * s)).sum = 0 := ih.mpr (fun s hs => h s (Or.inr hs))
      rw [hx, ht]; ring

theorem zip_weights_sum (scores : List ℚ) :
    ((scores.zip (scores.map (fun s => s * s))).map (fun p => p.1 * p.2)).sum
      = (scores.map (fun s => s * (s * s))).sum := by
  induction scores with
  | nil => rfl
  | cons x t ih => simp [ih]

theorem clamp01_min_one (q : ℚ) : clamp01 (min 1 q) = clamp01 q := by
  unfold clamp01
  rcases le_total q 1 with h | h
  · rw [min_eq_right h]
  · rw [min_eq_left h]
    have h2 : max 0 q = q := max_eq_right (le_trans zero_le_one h)
    rw [h2, min_eq_left h]
    simp

theorem pyRoundInt_nonneg (q : ℚ) (h : 0 ≤ q) : 0 ≤ pyRoundInt q := by
  have hf : (0 : ℤ) ≤ ⌊q⌋ := by
    rw [Int.le_floor]; exact_mod_cast h
  unfold pyRoundInt
  split
  · exact hf
  · split
    · omega
    · split
      · exact hf
      · omega

theorem pyRoundInt_le (q : ℚ) (hi : ℤ) (h : q ≤ hi) : pyRoundInt q ≤ hi := by
  have hf : ⌊q⌋ ≤ hi := by
    have h2 : ⌊q⌋ ≤ ⌊(hi : ℚ)⌋ := Int.floor_mono h
    simpa using h2
  unfold pyRoundInt
  split
  · exact hf
  · rename_i hr
    push_neg at hr
    have hfl : (⌊q⌋ : ℚ) ≤ q := Int.floor_le q
    have hlt : ⌊q⌋ < hi := by
      by_contra hge
      push_neg at hge
      have hcast : (hi : ℚ) ≤ (⌊q⌋ : ℚ) := by exact_mod_cast hge
      linarith
    split
    · omega
    · split <;> omega

theorem pyRound4_bounds (q : ℚ) (h0 : 0 ≤ q) (h1 : q ≤ 1) :
    0 ≤ pyRound 4 q ∧ pyRound 4 q ≤ 1 := by
  have hn0 : (0 : ℤ) ≤ pyRoundInt (q * (10 ^ 4 : ℕ)) :=
    pyRoundInt_nonneg _ (by positivity)
  have hn1 : pyRoundInt (q * (10 ^ 4 : ℕ)) ≤ (10000 : ℤ) := by
    refine pyRoundInt_le _ _ ?_
    push_cast
    nlinarith
  unfold pyRound
  constructor
  · positivity
  · rw [div_le_one (by positivity)]
    push_cast
    exact_mod_cast hn1

theorem clamp01_bounds (q : ℚ) : 0 ≤ clamp01 q ∧ clamp01 q ≤ 1 :=
  ⟨le_min zero_le_one (le_max_left 0 q), min_le_left 1 _⟩

/-- C4: `_calculate_confidence` (the `confidence` property and the
`<confianca_global>` value) returns 0 for no hits or all-zero scores;
otherwise it is the score²-weighted average, multiplied by 0.8 for fewer
than 2 hits, given a flat +0.05 bonus when the first hit's score exceeds
0.9, clamped to [0, 1] and rounded to 4 decimals; the result always lies
in [0, 1]. -/
theorem round_clamp_bonus (b : Prop) [Decidable b] (x : ℚ) :
    pyRound 4 (min 1 (max 0 (if b then min 1 (x + 1/20) else x)))
      = pyRound 4 (clamp01 (if b then x + 1/20 else x)) := by
  unfold clamp01
  by_cases hb : b
  · simp only [if_pos hb]
    have h := clamp01_min_one (x + 1/20)
    unfold clamp01 at h
    rw [h]
  · simp only [if_neg hb]

/-- C4: `_calculate_confidence` (the `confidence` property and the
`<confianca_global>` value) returns 0 for no hits or all-zero scores;
otherwise it is the score²-weighted average, multiplied by 0.8 for fewer
than 2 hits, given a flat +0.05 bonus when the first hit's score exceeds
0.9, clamped to [0, 1] and rounded to 4 decimals; the result always lies
in [0, 1]. -/
theorem c4_confidence (r : SearchResult) :
    (r.hits = [] → calculate_confidence r = 0)
    ∧ ((∀ h ∈ r.hits, h.score = 0) → calculate_confidence r = 0)
    ∧ (∀ h0 t, r.hits = h0 :: t → ¬(∀ h ∈ r.hits, h.score = 0) →
        calculate_confidence r
          = pyRound 4 (clamp01 (specBonus h0.score
              (specPenalty r.hits.length
                (specWeightedAverage (r.hits.map (fun h => h.score)))))))
    ∧ 0 ≤ calculate_confidence r ∧ calculate_confidence r ≤ 1 := by
  have hmain : ∀ h0 t, r.hits = h0 :: t →
      ¬((((h0 :: t).map (fun h => h.score)).map (fun s => s * s)).sum = 0) →
      calculate_confidence r
        = pyRound 4 (clamp01 (specBonus h0.score
            (specPenalty r.hits.length
              (specWeightedAverage (r.hits.map (fun h => h.score)))))) := by
    intro h0 t hhits hw
    unfold calculate_confidence
    rw [hhits]
    simp only [if_neg hw]
    rw [zip_weights_sum]
    unfold specBonus specPenalty specWeightedAverage
    rw [List.length_map]
    exact round_clamp_bonus _ _
  refine ⟨?_, ?_, ?_, ?_⟩
  · intro h
    unfold calculate_confidence
    rw [h]
  · intro hall
    cases hhits : r.hits with
    | nil =>
      unfold calculate_confidence
      rw [hhits]
    | cons h0 t =>
      unfold calculate_confidence
      rw [hhits]
      have hz : (((h0 :: t).map (fun h => h.score)).map (fun s => s * s)).sum = 0 := by
        refine (sum_sq_eq_zero_iff _).mpr ?_
        intro s hs
        obtain ⟨h, hh, rfl⟩ := List.mem_map.mp hs
        exact hall h (hhits ▸ hh)
      simp only [if_pos hz]
  · intro h0 t hhits hnall
    refine hmain h0 t hhits ?_
    intro hz
    exact hnall (by
      intro h hh
      have hall := (sum_sq_eq_zero_iff _).mp hz
      exact hall h.score (List.mem_map_of_mem _ (hhits ▸ hh)))
  · cases hhits : r.hits with
    | nil =>
      constructor <;> (unfold calculate_confidence; rw [hhits]; try norm_num)
    | cons h0 t =>
      by_cases hz : (((h0 :: t).map (fun h => h.score)).map (fun s => s * s)).sum = 0
      · constructor <;> (unfold calculate_confidence; rw [hhits]; simp only [if_pos hz]; try norm_num)
      · rw [hmain h0 t hhits hz]
        obtain ⟨hc0, hc1⟩ := clamp01_bounds (specBonus h0.score
          (specPenalty r.hits.length (specWeightedAverage (r.hits.map (fun h => h.score)))))
        exact pyRound4_bounds _ hc0 hc1

def c4Hit : Hit :=
  { text := "t", score := 1, source := "s"
    metadata := { document_type := "lei", document_number := "1", year := 2021 } }

def c4Result : SearchResult := { hits := [c4Hit] }

theorem c4_witness :
    (c4Result.hits = c4Hit :: [] ∧ ¬(∀ h ∈ c4Result.hits, h.score = 0))
    ∧ calculate_confidence c4Result
        = pyRound 4 (clamp01 (specBonus c4Hit.score
            (specPenalty c4Result.hits.length
              (specWeightedAverage (c4Result.hits.map (fun h => h.score)))))) :=
  ⟨⟨rfl, by simp [c4Result, c4Hit]⟩,
   (c4_confidence c4Result).2.2.1 c4Hit [] rfl (by simp [c4Result, c4Hit])⟩

-- ===========================================================================
-- C5 — invalid level / unsupported type errors
-- ===========================================================================

/-- C5: for any level outside {"data", "instructions", "full"} each XML
builder fails immediately with the `ValueError` whose message quotes the
invalid value and lists the three accepted values (the `Except` result
carries no partial output); and the dispatch entry point fails with a
`TypeError` naming the unsupported result type. -/
theorem c5_errors (level : String) (hl : level ∉ VALID_LEVELS) :
    (∀ r : SearchResult, build_xml r level
        = .error (.valueError (invalid_level_msg level)))
    ∧ (∀ r : HybridResult, build_hybrid_xml r level
        = .error (.valueError (invalid_level_msg level)))
    ∧ (∀ r : LookupResult, build_lookup_xml r level
        = .error (.valueError (invalid_level_msg level)))
    ∧ (∀ (typeName : String) (anyLevel : String),
        serialize_to_xml (.other typeName) anyLevel
          = .error (.typeError (unsupported_type_msg typeName))) := by
  refine ⟨fun r => ?_, fun r => ?_, fun r => ?_, fun t l2 => rfl⟩
  · unfold build_xml
    rw [if_pos hl]
  · unfold build_hybrid_xml
    rw [if_pos hl]
  · unfold build_lookup_xml
    rw [if_pos hl]

theorem c5_witness :
    ("bogus_level" ∉ VALID_LEVELS)
    ∧ build_xml {} "bogus_level"
        = .error (.valueError (invalid_level_msg "bogus_level"))
    ∧ build_hybrid_xml {} "bogus_level"
        = .error (.valueError (invalid_level_msg "bogus_level"))
    ∧ build_lookup_xml {} "bogus_level"
        = .error (.valueError (invalid_level_msg "bogus_level"))
    ∧ serialize_to_xml (.other "dict") "data"
        = .error (.typeError (unsupported_type_msg "dict")) :=
  ⟨by decide,
   (c5_errors "bogus_level" (by decide)).1 {},
   (c5_errors "bogus_level" (by decide)).2.1 {},
   (c5_errors "bogus_level" (by decide)).2.2.1 {},
   (c5_errors "bogus_level" (by decide)).2.2.2 "dict" "data"⟩

-- ===========================================================================
-- C1 — whitelist completeness
-- ===========================================================================

/-- One step of first-seen deduplication. -/
def dedupStep {α : Type} [DecidableEq α] (acc : List α) (x : α) : List α :=
  if x ∈ acc then acc else acc ++ [x]

/-- First-seen-order deduplication (the claim's "deduplicated, first-seen
ordered"). -/
def dedupFirstSeen {α : Type} [DecidableEq α] (l : List α) : List α :=
  l.foldl dedupStep []

/-- First-seen deduplication that also drops empty strings (the code skips
falsy span-ids). -/
def skipEmptyStep (acc : List String) (x : String) : List String :=
  if x ≠ "" ∧ x ∉ acc then acc ++ [x] else acc

theorem foldl_skipEmpty_eq_filter :
    ∀ (l : List String) (acc : List String),
      l.foldl skipEmptyStep acc = ((l.filter (fun s => s ≠ "")).foldl dedupStep acc) := by
  intro l
  induction l with
  | nil => intro acc; rfl
  | cons x t ih =>
    intro acc
    by_cases hx : x = ""
    · subst hx
      show List.foldl skipEmptyStep (skipEmptyStep acc "") t = _
      rw [ih]
      simp [skipEmptyStep]
    · show List.foldl skipEmptyStep (skipEmptyStep acc x) t = _
      rw [ih]
      have hf : ("" :: t).filter (fun s => s ≠ "") = t.filter (fun s => s ≠ "") := by simp
      have : (x :: t).filter (fun s => s ≠ "") = x :: t.filter (fun s => s ≠ "") := by
        simp [hx]
      rw [this]
      show _ = List.foldl dedupStep (dedupStep acc x) _
      congr 1
      simp [skipEmptyStep, dedupStep, hx]

theorem collectHitStep_fst (we : Bool) (acc : List String × List (String × String)) (h : Hit) :
    (collectHitStep we acc h).1 = skipEmptyStep acc.1 (extract_span_id h.chunk_id) := by
  unfold collectHitStep skipEmptyStep
  by_cases hc : extract_span_id h.chunk_id ≠ "" ∧ extract_span_id h.chunk_id ∉ acc.1
  · rw [if_pos hc, if_pos hc]
  · rw [if_neg hc, if_neg hc]

theorem pyTruthy_iff_getD (o : Option String) : pyTruthy o = true ↔ o.getD "" ≠ "" := by
  cases o <;> simp [pyTruthy]

theorem collectExpStep_fst {ε : Type} (spanOf chunkOf : ε → Option String) (we : Bool)
    (acc : List String × List (String × String)) (ec : ε) :
    (collectExpStep spanOf chunkOf we acc ec).1
      = skipEmptyStep acc.1 ((spanOf ec).getD "") := by
  unfold collectExpStep skipEmptyStep
  by_cases hc : pyTruthy (spanOf ec) ∧ (spanOf ec).getD "" ∉ acc.1
  · have h2 : (spanOf ec).getD "" ≠ "" ∧ (spanOf ec).getD "" ∉ acc.1 :=
      ⟨(pyTruthy_iff_getD _).mp hc.1, hc.2⟩
    rw [if_pos hc, if_pos h2]
  · have h2 : ¬((spanOf ec).getD "" ≠ "" ∧ (spanOf ec).getD "" ∉ acc.1) := by
      intro hc2
      exact hc ⟨(pyTruthy_iff_getD _).mpr hc2.1, hc2.2⟩
    rw [if_neg hc, if_neg h2]

theorem foldl_collectHitStep_fst (we : Bool) :
    ∀ (hits : List Hit) (acc : List String × List (String × String)),
      (hits.foldl (collectHitStep we) acc).1
        = (hits.map (fun h => extract_span_id h.chunk_id)).foldl skipEmptyStep acc.1 := by
  intro hits
  induction hits with
  | nil => intro acc; rfl
  | cons h t ih =>
    intro acc
    show (t.foldl (collectHitStep we) (collectHitStep we acc h)).1 = _
    rw [ih, collectHitStep_fst]
    rfl

theorem foldl_collectExpStep_fst {ε : Type} (spanOf chunkOf : ε → Option String) (we : Bool) :
    ∀ (expanded : List ε) (acc : List String × List (String × String)),
      (expanded.foldl (collectExpStep spanOf chunkOf we) acc).1
        = (expanded.map (fun e => (spanOf e).getD "")).foldl skipEmptyStep acc.1 := by
  intro expanded
  induction expanded with
  | nil => intro acc; rfl
  | cons e t ih =>
    intro acc
    show (t.foldl (collectExpStep spanOf chunkOf we) (collectExpStep spanOf chunkOf we acc e)).1 = _
    rw [ih, collectExpStep_fst]
    rfl

/-- The ids collected by `_collect_ids` are exactly the first-seen
deduplication of the non-empty span-ids of the hits followed by those of
the expanded elements. -/
theorem collect_ids_fst {ε : Type} (hits : List Hit) (expanded : List ε)
    (spanOf chunkOf : ε → Option String) (we : Bool) :
    (collect_ids hits expanded spanOf chunkOf we).1
      = dedupFirstSeen (((hits.map (fun h => extract_span_id h.chunk_id))
          ++ expanded.map (fun e => (spanOf e).getD "")).filter (fun s => s ≠ "")) := by
  unfold collect_ids dedupFirstSeen
  rw [foldl_collectExpStep_fst, foldl_collectHitStep_fst]
  rw [foldl_skipEmpty_eq_filter, foldl_skipEmpty_eq_filter]
  rw [List.filter_append, List.foldl_append]

/-- The claim's whitelist for a search result: span-ids extracted from the
hits' chunk_ids followed by the expanded chunks' span_ids, empty ids
dropped, deduplicated in first-seen order. -/
def claimSearchIds (r : SearchResult) : List String :=
  dedupFirstSeen ((r.hits.map (fun h => extract_span_id h.chunk_id)
      ++ r.expanded_chunks.map (fun ec => ec.span_id)).filter (fun s => s ≠ ""))

/-- The claim's whitelist for a hybrid result: hits' span-ids followed by
the graph nodes' span_ids. -/
def claimHybridIds (r : HybridResult) : List String :=
  dedupFirstSeen ((r.hits.map (fun h => extract_span_id h.chunk_id)
      ++ r.graph_nodes.map (fun h => h.span_id.getD "")).filter (fun s => s ≠ ""))

/-- The claim's whitelist for a lookup result: the span_ids of match,
parent and siblings, deduplicated in first-seen order. -/
def claimLookupIds (r : LookupResult) : List (Option String) :=
  dedupFirstSeen ((match r.«match» with | some m => [m.span_id] | none => [])
      ++ (match r.parent with | some p => [p.span_id] | none => [])
      ++ r.siblings.map (fun s => s.span_id))

theorem lookupAuthorizedIds_eq_claim (r : LookupResult) :
    lookupAuthorizedIds r = claimLookupIds r := by
  have hfold : ∀ (sibs : List Hit) (init : List (Option String)),
      sibs.foldl (fun ids sib => if sib.span_id ∈ ids then ids else ids ++ [sib.span_id]) init
        = (sibs.map (fun s => s.span_id)).foldl dedupStep init := by
    intro sibs
    induction sibs with
    | nil => intro init; rfl
    | cons s t ih =>
      intro init
      simp only [List.foldl_cons, List.map_cons]
      have hstep : (if s.span_id ∈ init then init else init ++ [s.span_id])
          = dedupStep init s.span_id := by
        unfold dedupStep
        congr
      rw [hstep]
      exact ih (dedupStep init s.span_id)
  unfold lookupAuthorizedIds claimLookupIds dedupFirstSeen
  rw [List.foldl_append, List.foldl_append, hfold]
  congr 1
  cases r.«match» with
  | none =>
    cases r.parent with
    | none => rfl
    | some p => simp [dedupStep]
  | some m =>
    cases r.parent with
    | none => simp [dedupStep]
    | some p => simp [dedupStep]

theorem build_response_schema_some (r : SearchResult) (w : SchemaWrapper String)
    (h : build_response_schema r = some w) :
    w = build_schema_dict (collect_authorized_ids r).1 := by
  unfold build_response_schema at h
  split at h
  · exact absurd h (by simp)
  · split at h
    · exact absurd h (by simp)
    · exact (Option.some.inj h).symm

/-- C1: whenever a schema is produced, the `dispositivo_id` enum (and the
`dispositivos_nao_utilizados` enum) is exactly the deduplicated,
first-seen ordered list of span-ids derivable from the result: hits then
expanded chunks for search, hits then graph nodes for hybrid, and match,
parent, siblings for lookup — no extra ids, no missing ids, no
duplicates. -/
theorem c1_whitelist :
    (∀ (r : SearchResult) (w : SchemaWrapper String), build_response_schema r = some w →
        w.dispositivo_id_enum = claimSearchIds r ∧ w.nao_utilizados_enum = claimSearchIds r)
    ∧ (∀ (r : HybridResult) (w : SchemaWrapper String), hybridToResponseSchema r = some w →
        w.dispositivo_id_enum = claimHybridIds r ∧ w.nao_utilizados_enum = claimHybridIds r)
    ∧ (∀ (r : LookupResult) (w : SchemaWrapper (Option String)),
        lookupToResponseSchema r = some w →
        w.dispositivo_id_enum = claimLookupIds r ∧ w.nao_utilizados_enum = claimLookupIds r) := by
  refine ⟨?_, ?_, ?_⟩
  · intro r w h
    have hw := build_response_schema_some r w h
    have hids : (collect_authorized_ids r).1 = claimSearchIds r := by
      unfold collect_authorized_ids claimSearchIds
      rw [collect_ids_fst]
      simp only [Option.getD_some]
    rw [hw, hids]
    exact ⟨rfl, rfl⟩
  · intro r w h
    unfold hybridToResponseSchema at h
    split at h
    · exact absurd h (by simp)
    · have hw : w = build_schema_dict (collect_authorized_ids_from_hits r.hits r.graph_nodes) :=
        (Option.some.inj h).symm
      have hids : collect_authorized_ids_from_hits r.hits r.graph_nodes = claimHybridIds r := by
        unfold collect_authorized_ids_from_hits claimHybridIds
        rw [collect_ids_fst]
      rw [hw, hids]
      exact ⟨rfl, rfl⟩
  · intro r w h
    unfold lookupToResponseSchema at h
    split at h
    · exact absurd h (by simp)
    · have hw : w = build_schema_dict (lookupAuthorizedIds r) :=
        (Option.some.inj h).symm
      rw [hw, lookupAuthorizedIds_eq_claim]
      exact ⟨rfl, rfl⟩

def mLei : Metadata := { document_type := "lei", document_number := "14133", year := 2021 }

def c1Hit1 : Hit :=
  { text := "t1", score := 9/10, source := "s1", metadata := mLei
    chunk_id := some "LEI-14133-2021#ART-033" }

def c1Hit2 : Hit :=
  { text := "t2", score := 8/10, source := "s2", metadata := mLei
    chunk_id := some "LEI-14133-2021#ART-033" }

def c1Hit3 : Hit := { text := "t3", score := 7/10, source := "s3", metadata := mLei }

def c1Exp : ExpandedChunk := { chunk_id := "LEI-14133-2021#ART-018", span_id := "ART-018" }

def c1SearchRes : SearchResult :=
  { hits := [c1Hit1, c1Hit2, c1Hit3], expanded_chunks := [c1Exp] }

def c1Graph : Hit :=
  { text := "g", score := 0, source := "", metadata := mLei
    span_id := some "ART-002", document_id := some "LEI-14133-2021" }

def c1HybridRes : HybridResult := { hits := [c1Hit1], graph_nodes := [c1Graph] }

def c1Match : Hit :=
  { text := "m", score := 0, source := "", metadata := mLei
    span_id := some "PAR-018-2", device_type := some "paragraph" }

def c1Parent : Hit :=
  { text := "p", score := 0, source := "", metadata := mLei
    span_id := some "ART-018", device_type := some "article" }

def c1Sib : Hit :=
  { text := "s", score := 0, source := "", metadata := mLei
    span_id := some "PAR-018-1", device_type := some "paragraph" }

def c1LookupRes : LookupResult :=
  { status := "found", «match» := some c1Match, parent := some c1Parent
    siblings := [c1Sib, c1Match] }

theorem c1_witness :
    build_response_schema c1SearchRes = some (build_schema_dict ["ART-033", "ART-018"])
    ∧ (build_schema_dict ["ART-033", "ART-018"] : SchemaWrapper String).dispositivo_id_enum
        = claimSearchIds c1SearchRes
    ∧ hybridToResponseSchema c1HybridRes = some (build_schema_dict ["ART-033", "ART-002"])
    ∧ (build_schema_dict ["ART-033", "ART-002"] : SchemaWrapper String).dispositivo_id_enum
        = claimHybridIds c1HybridRes
    ∧ lookupToResponseSchema c1LookupRes
        = some (build_schema_dict [some "PAR-018-2", some "ART-018", some "PAR-018-1"])
    ∧ (build_schema_dict [some "PAR-018-2", some "ART-018", some "PAR-018-1"]
        : SchemaWrapper (Option String)).dispositivo_id_enum = claimLookupIds c1LookupRes :=
  ⟨rfl, (c1_whitelist.1 c1SearchRes _ rfl).1,
   rfl, (c1_whitelist.2.1 c1HybridRes _ rfl).1,
   rfl, (c1_whitelist.2.2 c1LookupRes _ rfl).1⟩

-- ===========================================================================
-- C6 — empty-result boundary of the schema builders
-- ===========================================================================

theorem dedupStep_ne_nil {α : Type} [DecidableEq α] (acc : List α) (x : α) :
    dedupStep acc x ≠ [] := by
  unfold dedupStep
  split
  · rename_i hmem
    intro h
    rw [h] at hmem
    exact absurd hmem (List.not_mem_nil x)
  · simp

theorem foldl_dedup_ne_nil {α : Type} [DecidableEq α] :
    ∀ (l acc : List α), acc ≠ [] → l.foldl dedupStep acc ≠ [] := by
  intro l
  induction l with
  | nil => intro acc h; simpa
  | cons x t ih =>
    intro acc _
    exact ih (dedupStep acc x) (dedupStep_ne_nil acc x)

theorem dedupFirstSeen_eq_nil_iff {α : Type} [DecidableEq α] (l : List α) :
    dedupFirstSeen l = [] ↔ l = [] := by
  cases l with
  | nil => simp [dedupFirstSeen]
  | cons x t =>
    simp only [dedupFirstSeen, List.foldl_cons]
    constructor
    · intro h
      exfalso
      have hne : t.foldl dedupStep [x] ≠ [] := foldl_dedup_ne_nil t [x] (by simp)
      have hstep : dedupStep ([] : List α) x = [x] := by simp [dedupStep]
      rw [hstep] at h
      exact hne h
    · intro h
      exact absurd h (by simp)

def c6Hit : Hit :=
  { text := "Art. 33.", score := 9/10, source := "Lei 14.133/2021, Art. 33"
    metadata := mLei }

def c6Result : SearchResult := { query := "q", hits := [c6Hit] }

def c6GraphNode : Hit :=
  { text := "g", score := 0, source := "", metadata := mLei, span_id := some "ART-002" }

def c6Hybrid : HybridResult := { hits := [], graph_nodes := [c6GraphNode] }

/-- C6 (counterexample): the claim says the schema builders return `None`
exactly when the result carries zero hits.  Both directions fail on the
code: a search result with one hit but no chunk_id yields `None` despite
having hits, and a hybrid result with zero hits but a graph node with a
span_id yields a schema. -/
theorem c6_counterexample :
    (c6Result.hits ≠ [] ∧ build_response_schema c6Result = none)
    ∧ (c6Hybrid.hits = [] ∧ hybridToResponseSchema c6Hybrid ≠ none) := by decide

/-- C6 (amended): `to_response_schema` / `to_anthropic_tool_schema` return
`None` — not an error and not an empty schema — exactly when the collected
whitelist is empty: for search, no hits or no hit/expanded chunk yields a
non-empty span-id; for hybrid, no hit or graph node yields a non-empty
span-id; for lookup, match and parent absent and no siblings.  Otherwise
they return the wrapper named "resposta_juridica_vectorgov" with strict
true and a schema. -/
theorem c6_schema_none_iff :
    (∀ r : SearchResult, build_response_schema r = none
        ↔ (r.hits = [] ∨ (collect_authorized_ids r).1 = []))
    ∧ (∀ r : SearchResult, build_anthropic_tool_schema r = none
        ↔ build_response_schema r = none)
    ∧ (∀ r : HybridResult, hybridToResponseSchema r = none
        ↔ collect_authorized_ids_from_hits r.hits r.graph_nodes = [])
    ∧ (∀ r : HybridResult, hybridToAnthropicToolSchema r = none
        ↔ hybridToResponseSchema r = none)
    ∧ (∀ r : LookupResult, lookupToResponseSchema r = none
        ↔ (r.«match» = none ∧ r.parent = none ∧ r.siblings = []))
    ∧ (∀ r : LookupResult, lookupToAnthropicToolSchema r = none
        ↔ lookupToResponseSchema r = none)
    ∧ (∀ (r : SearchResult) (w : SchemaWrapper String), build_response_schema r = some w →
        w.name = "resposta_juridica_vectorgov" ∧ w.strict = true)
    ∧ (∀ (r : HybridResult) (w : SchemaWrapper String), hybridToResponseSchema r = some w →
        w.name = "resposta_juridica_vectorgov" ∧ w.strict = true)
    ∧ (∀ (r : LookupResult) (w : SchemaWrapper (Option String)),
        lookupToResponseSchema r = some w →
        w.name = "resposta_juridica_vectorgov" ∧ w.strict = true) := by
  refine ⟨?_, ?_, ?_, ?_, ?_, ?_, ?_, ?_, ?_⟩
  · intro r
    unfold build_response_schema
    split
    · rename_i h; simp [h]
    · rename_i h
      split
      · rename_i h2; simp [h, h2]
      · rename_i h2; simp [h, h2]
  · intro r
    unfold build_anthropic_tool_schema
    cases h : build_response_schema r <;> simp
  · intro r
    unfold hybridToResponseSchema
    split
    · rename_i h; simp [h]
    · rename_i h; simp [h]
  · intro r
    unfold hybridToAnthropicToolSchema
    cases h : hybridToResponseSchema r <;> simp
  · intro r
    unfold lookupToResponseSchema
    have hiff : lookupAuthorizedIds r = []
        ↔ (r.«match» = none ∧ r.parent = none ∧ r.siblings = []) := by
      rw [lookupAuthorizedIds_eq_claim]
      unfold claimLookupIds
      rw [dedupFirstSeen_eq_nil_iff]
      cases r.«match» <;> cases r.parent <;> simp
    split
    · rename_i h; simp [hiff.mp h]
    · rename_i h
      simp only [reduceCtorEq, false_iff]
      intro hc
      exact h (hiff.mpr hc)
  · intro r
    unfold lookupToAnthropicToolSchema
    cases h : lookupToResponseSchema r <;> simp
  · intro r w h
    have hw := build_response_schema_some r w h
    rw [hw]
    exact ⟨rfl, rfl⟩
  · intro r w h
    unfold hybridToResponseSchema at h
    split at h
    · exact absurd h (by simp)
    · have hw : w = build_schema_dict (collect_authorized_ids_from_hits r.hits r.graph_nodes) :=
        (Option.some.inj h).symm
      rw [hw]
      exact ⟨rfl, rfl⟩
  · intro r w h
    unfold lookupToResponseSchema at h
    split at h
    · exact absurd h (by simp)
    · have hw : w = build_schema_dict (lookupAuthorizedIds r) := (Option.some.inj h).symm
      rw [hw]
      exact ⟨rfl, rfl⟩

def c6SomeRes : SearchResult :=
  { query := "q", hits := [{ c6Hit with chunk_id := some "LEI-14133-2021#ART-033" }] }

theorem c6_witness :
    build_response_schema c6SomeRes = some (build_schema_dict ["ART-033"])
    ∧ ((build_schema_dict ["ART-033"] : SchemaWrapper String).name
          = "resposta_juridica_vectorgov"
        ∧ (build_schema_dict ["ART-033"] : SchemaWrapper String).strict = true)
    ∧ (build_response_schema ({ query := "q" } : SearchResult) = none
        ↔ (({ query := "q" } : SearchResult).hits = []
            ∨ (collect_authorized_ids ({ query := "q" } : SearchResult)).1 = [])) :=
  ⟨rfl, c6_schema_none_iff.2.2.2.2.2.2.1 c6SomeRes _ rfl,
   c6_schema_none_iff.1 { query := "q" }⟩

-- ===========================================================================
-- C10 — hits without chunk_id contribute nothing
-- ===========================================================================

theorem extract_span_id_of_falsy (o : Option String) (hf : pyTruthy o = false) :
    extract_span_id o = "" := by
  cases o with
  | none => rfl
  | some s =>
    have hs : s = "" := by simpa [pyTruthy] using hf
    subst hs
    rfl

theorem collectHitStep_skip (we : Bool) (acc : List String × List (String × String))
    (h : Hit) (hf : pyTruthy h.chunk_id = false) :
    collectHitStep we acc h = acc := by
  have hspan := extract_span_id_of_falsy h.chunk_id hf
  simp [collectHitStep, hspan]

theorem foldl_collectHitStep_filter (we : Bool) :
    ∀ (hits : List Hit) (acc : List String × List (String × String)),
      (hits.filter (fun h => pyTruthy h.chunk_id)).foldl (collectHitStep we) acc
        = hits.foldl (collectHitStep we) acc := by
  intro hits
  induction hits with
  | nil => intro acc; rfl
  | cons h t ih =>
    intro acc
    by_cases hc : pyTruthy h.chunk_id
    · rw [List.filter_cons_of_pos (by simpa using hc)]
      simp only [List.foldl_cons]
      exact ih _
    · rw [List.filter_cons_of_neg (by simpa using hc)]
      simp only [List.foldl_cons]
      rw [ih, collectHitStep_skip we acc h (by simpa using hc)]

/-- C10: a hit whose chunk_id is `None` or empty contributes nothing to the
authorized-id whitelist (the schema enum, `dispositivos_autorizados` and
`mapa_evidencias` all come from `_collect_ids`) and no `<evidencia>` to
`<trilha_verificavel>`; in particular a search result whose hits are
non-empty but yield no non-empty span-id, with no expanded chunks, gets
`None` from `to_response_schema` even though hits exist. -/
theorem c10_empty_chunk (r : SearchResult)
    (h1 : r.hits ≠ [])
    (h2 : ∀ h ∈ r.hits, extract_span_id h.chunk_id = "")
    (h3 : r.expanded_chunks = []) :
    build_response_schema r = none
    ∧ (∀ {ε : Type} (hits : List Hit) (expanded : List ε)
        (spanOf chunkOf : ε → Option String) (we : Bool),
        collect_ids (hits.filter (fun h => pyTruthy h.chunk_id)) expanded spanOf chunkOf we
          = collect_ids hits expanded spanOf chunkOf we)
    ∧ (∀ hits : List Hit,
        build_trilha_verificavel_for_hits (hits.filter (fun h => pyTruthy h.chunk_id))
          = build_trilha_verificavel_for_hits hits) := by
  refine ⟨?_, ?_, ?_⟩
  · have hids : (collect_authorized_ids r).1 = [] := by
      unfold collect_authorized_ids
      rw [collect_ids_fst]
      have hfilter : ((r.hits.map (fun h => extract_span_id h.chunk_id)
          ++ r.expanded_chunks.map (fun e => ((some e.span_id)).getD "")).filter
            (fun s => s ≠ "")) = [] := by
        rw [List.filter_eq_nil_iff]
        intro s hs
        rcases List.mem_append.mp hs with hm | hm
        · obtain ⟨h, hh, rfl⟩ := List.mem_map.mp hm
          simp [h2 h hh]
        · rw [h3] at hm
          exact absurd hm (by simp)
      rw [hfilter]
      rfl
    unfold build_response_schema
    rw [if_neg h1, if_pos hids]
  · intro ε hits expanded spanOf chunkOf we
    unfold collect_ids
    rw [foldl_collectHitStep_filter]
  · intro hits
    have hf : (hits.filter (fun h => pyTruthy h.chunk_id)).filter
        (fun h => pyTruthy h.chunk_id) = hits.filter (fun h => pyTruthy h.chunk_id) := by
      rw [List.filter_filter]
      simp
    unfold build_trilha_verificavel_for_hits
    rw [hf]

def c10Hit : Hit :=
  { text := "Art. 1.", score := 9/10, source := "Lei", metadata := mLei }

def c10Res : SearchResult := { query := "q", hits := [c10Hit] }

theorem c10_witness :
    (c10Res.hits ≠ [] ∧ (∀ h ∈ c10Res.hits, extract_span_id h.chunk_id = "")
      ∧ c10Res.expanded_chunks = [])
    ∧ build_response_schema c10Res = none :=
  ⟨⟨by decide, by decide, rfl⟩,
   (c10_empty_chunk c10Res (by decide) (by decide) rfl).1⟩

-- ===========================================================================
-- C3 — grouping and in-group ordering
-- ===========================================================================

theorem insertHit_map_fst (acc : List (String × SourceGroup)) (key : String) (h : Hit) :
    (insertHit acc key h).map Prod.fst = dedupStep (acc.map Prod.fst) key := by
  induction acc with
  | nil => simp [insertHit, dedupStep]
  | cons p rest ih =>
    obtain ⟨k, g⟩ := p
    by_cases hk : k = key
    · subst hk
      simp [insertHit, dedupStep]
    · simp only [insertHit, if_neg hk, List.map_cons]
      rw [ih]
      unfold dedupStep
      by_cases hmem : key ∈ rest.map Prod.fst
      · rw [if_pos hmem, if_pos (List.mem_cons.mpr (Or.inr hmem))]
      · rw [if_neg hmem, if_neg (by
          intro hcon
          rcases List.mem_cons.mp hcon with heq | hmem2
          · exact hk heq.symm
          · exact hmem hmem2)]
        simp

theorem groupHitsAux_map_fst : ∀ (l : List Hit) (acc : List (String × SourceGroup)),
    (groupHitsAux acc l).map Prod.fst
      = (l.map sourceKey).foldl dedupStep (acc.map Prod.fst) := by
  intro l
  induction l with
  | nil => intro acc; rfl
  | cons h t ih =>
    intro acc
    show (groupHitsAux (insertHit acc (sourceKey h) h) t).map Prod.fst = _
    rw [ih, insertHit_map_fst]
    rfl

theorem foldl_dedup_length {α : Type} [DecidableEq α] :
    ∀ (l acc : List α), acc.Nodup →
      (l.foldl dedupStep acc).length = (acc ++ l).toFinset.card := by
  intro l
  induction l with
  | nil =>
    intro acc hnd
    simp [List.toFinset_card_of_nodup hnd]
  | cons x t ih =>
    intro acc hnd
    simp only [List.foldl_cons]
    by_cases hmem : x ∈ acc
    · rw [show dedupStep acc x = acc from by simp [dedupStep, hmem]]
      rw [ih acc hnd]
      congr 1
      apply Finset.ext
      intro a
      simp only [List.toFinset_append, List.toFinset_cons, Finset.mem_union,
        Finset.mem_insert, List.mem_toFinset]
      constructor
      · rintro (ha | ha)
        · exact Or.inl ha
        · exact Or.inr (Or.inr ha)
      · rintro (ha | ha | ha)
        · exact Or.inl ha
        · exact Or.inl (ha ▸ hmem)
        · exact Or.inr ha
    · rw [show dedupStep acc x = acc ++ [x] from by simp [dedupStep, hmem]]
      have hnd2 : (acc ++ [x]).Nodup := by
        simp [List.nodup_append, hnd, hmem]
      rw [ih _ hnd2]
      congr 1
      apply Finset.ext
      intro a
      simp only [List.toFinset_append, List.toFinset_cons, Finset.mem_union,
        Finset.mem_insert, List.mem_toFinset, List.toFinset_nil,
        Finset.not_mem_empty, or_false, List.mem_singleton]
      tauto

/-- The ordering required within a source group: non-increasing scores,
exact ties broken by non-decreasing canonical_start (absent = infinity). -/
def hitOrd (a b : Hit) : Prop :=
  b.score ≤ a.score ∧ (a.score = b.score → csKey a ≤ csKey b)

theorem hitLe_trans : ∀ (a b c : Hit), hitLe a b → hitLe b c → hitLe a c := by
  intro a b c hab hbc
  simp only [hitLe, decide_eq_true_eq] at *
  rcases hab with h1 | ⟨h1, h2⟩ <;> rcases hbc with h3 | ⟨h3, h4⟩
  · exact Or.inl (lt_trans h3 h1)
  · exact Or.inl (by rw [← h3]; exact h1)
  · exact Or.inl (by rw [h1]; exact h3)
  · exact Or.inr ⟨h1.trans h3, h2.trans h4⟩

theorem hitLe_total : ∀ (a b : Hit), hitLe a b || hitLe b a := by
  intro a b
  simp only [hitLe, Bool.or_eq_true, decide_eq_true_eq]
  rcases lt_trichotomy a.score b.score with h | h | h
  · exact Or.inr (Or.inl h)
  · rcases le_total (csKey a) (csKey b) with h2 | h2
    · exact Or.inl (Or.inr ⟨h, h2⟩)
    · exact Or.inr (Or.inr ⟨h.symm, h2⟩)
  · exact Or.inl (Or.inl h)

theorem hitLe_imp_hitOrd (a b : Hit) (h : hitLe a b) : hitOrd a b := by
  simp only [hitLe, decide_eq_true_eq] at h
  rcases h with h1 | ⟨h1, h2⟩
  · exact ⟨le_of_lt h1, fun heq => absurd (heq ▸ h1) (lt_irrefl _)⟩
  · exact ⟨le_of_eq h1.symm, fun _ => h2⟩

theorem sortGroupHits_pairwise (hits : List Hit) :
    (sortGroupHits hits).Pairwise hitOrd := by
  have hs := @List.sorted_mergeSort Hit hitLe hitLe_trans hitLe_total hits
  exact hs.imp (fun {a b} h => hitLe_imp_hitOrd a b h)

def tripleOf (h : Hit) : String × String × ℤ :=
  (strToUpper h.metadata.document_type, h.metadata.document_number, h.metadata.year)

def c3HitA : Hit :=
  { text := "a", score := 1/2, source := "s"
    metadata := { document_type := "", document_number := "1", year := 2021 } }

def c3HitB : Hit :=
  { text := "b", score := 1/2, source := "s"
    metadata := { document_type := "doc", document_number := "1", year := 2021 } }

def c3Res : SearchResult := { query := "q", hits := [c3HitA, c3HitB] }

/-- C3 (counterexample): the claim equates the number of `<fonte>` groups
with the number of distinct (document_type uppercased, document_number,
year) triples.  The code normalizes an empty document_type to `"DOC"`
before keying, so two hits with the distinct triples `("", "1", 2021)`
and `("DOC", "1", 2021)` land in a single group: one `<fonte>`, two
triples. -/
theorem c3_counterexample :
    (group_hits_by_source c3Res.hits).length = 1
    ∧ ((build_base_normativa_element c3Res).map (fun b => b.children.length)) = [1]
    ∧ (c3Res.hits.map tripleOf).toFinset.card = 2 := by decide

/-- C3 (amended): the number of `<fonte>` elements equals the number of
distinct normalized source keys `f"{type}|{num}|{year}"` (empty
document_type → "DOC", uppercased; empty number → "?"; zero/absent year
→ "?"); the groups appear in first-seen key order, not sorted; and within
each `<fonte>` the `<dispositivo>` children follow the group's hits in
non-increasing score order with exact ties broken by non-decreasing
canonical_start, an absent canonical_start sorting last as infinity. -/
theorem c3_grouping (r : SearchResult) (hne : r.hits ≠ []) :
    build_base_normativa_element r
      = [XElem.mk "base_normativa" [] ""
          ((group_hits_by_source r.hits).map (fun p => build_fonte_element p.2))]
    ∧ (group_hits_by_source r.hits).length = (r.hits.map sourceKey).toFinset.card
    ∧ (group_hits_by_source r.hits).map Prod.fst = dedupFirstSeen (r.hits.map sourceKey)
    ∧ (∀ kg ∈ group_hits_by_source r.hits,
        (build_fonte_element kg.2).children
            = (sortGroupHits kg.2.hits).map build_dispositivo_element
          ∧ (sortGroupHits kg.2.hits).Pairwise hitOrd) := by
  refine ⟨?_, ?_, ?_, ?_⟩
  · unfold build_base_normativa_element base_normativa_for_hits
    rw [if_neg hne]
  · have hkeys : (group_hits_by_source r.hits).map Prod.fst
        = (r.hits.map sourceKey).foldl dedupStep [] := by
      unfold group_hits_by_source
      rw [groupHitsAux_map_fst]
      rfl
    have hlen : (group_hits_by_source r.hits).length
        = ((group_hits_by_source r.hits).map Prod.fst).length := (List.length_map _ _).symm
    rw [hlen, hkeys, foldl_dedup_length _ [] List.nodup_nil]
    simp
  · unfold group_hits_by_source dedupFirstSeen
    rw [groupHitsAux_map_fst]
    rfl
  · intro kg _
    exact ⟨rfl, sortGroupHits_pairwise kg.2.hits⟩

theorem c3_witness :
    c3Res.hits ≠ []
    ∧ ((group_hits_by_source c3Res.hits).length
          = (c3Res.hits.map sourceKey).toFinset.card
        ∧ (group_hits_by_source c3Res.hits).map Prod.fst
          = dedupFirstSeen (c3Res.hits.map sourceKey)) :=
  ⟨by decide,
   ⟨(c3_grouping c3Res (by decide)).2.1, (c3_grouping c3Res (by decide)).2.2.1⟩⟩

-- ===========================================================================
-- C7 — lookup hierarchy structure
-- ===========================================================================

/-- C7: for a lookup result with status "found", a match, a parent and
exactly three siblings of which exactly one is flagged current,
`build_lookup_xml` produces (at any valid level) a document whose tree
holds exactly one `<hierarquia_normativa>`, with exactly one
`<artigo_pai>`, one `<dispositivo_principal>` and one
`<dispositivos_irmaos>` containing exactly three `<irmao>` of which
exactly one carries `atual="true"`. -/
theorem c7_lookup_hierarchy (r : LookupResult) (level : String)
    (hlevel : level ∈ VALID_LEVELS) (hst : r.status = "found")
    (m : Hit) (hm : r.«match» = some m) (p : Hit) (hp : r.parent = some p)
    (hsib : r.siblings.length = 3)
    (hcur : r.siblings.countP (fun s => s.is_current) = 1) :
    build_lookup_xml r level = .ok (serElem (buildLookupXmlTree r level))
    ∧ ((buildLookupXmlTree r level).childrenNamed "hierarquia_normativa").length = 1
    ∧ (∀ hier ∈ (buildLookupXmlTree r level).childrenNamed "hierarquia_normativa",
        (hier.childrenNamed "artigo_pai").length = 1
        ∧ (hier.childrenNamed "dispositivo_principal").length = 1
        ∧ (hier.childrenNamed "dispositivos_irmaos").length = 1
        ∧ (∀ irm ∈ hier.childrenNamed "dispositivos_irmaos",
            (irm.childrenNamed "irmao").length = 3
            ∧ irm.children.countP
                (fun c => c.attr "atual" = some (some "true")) = 1)) := by
  have hnotin : ¬ level ∉ VALID_LEVELS := fun hn => hn hlevel
  have hsib_ne : r.siblings ≠ [] := by
    intro h0
    rw [h0] at hsib
    exact absurd hsib (by simp)
  have hhier : hierarquiaBlock r
      = [XElem.mk "hierarquia_normativa" [] ""
          ([artigoPaiElem p] ++ [dispositivoPrincipalElem m]
           ++ [XElem.mk "dispositivos_irmaos" [] "" (r.siblings.map irmaoElem)])] := by
    unfold hierarquiaBlock
    rw [hst, hm, hp, if_pos rfl, if_pos hsib_ne]
  have hcand : candidatosBlock r = [] := by
    unfold candidatosBlock
    rw [hst]
    simp
  have hchild : (buildLookupXmlTree r level).childrenNamed "hierarquia_normativa"
      = hierarquiaBlock r := by
    unfold buildLookupXmlTree XElem.childrenNamed
    simp only [XElem.children]
    rw [hcand, hhier]
    have hlevels : level = "data" ∨ level = "instructions" ∨ level = "full" := by
      simpa [VALID_LEVELS] using hlevel
    rcases hlevels with hl | hl | hl <;> subst hl <;>
      simp +decide [List.filter_append, List.filter_cons, XElem.name,
        build_instrucoes_element, build_lookup_instrucoes_completas]
  refine ⟨?_, ?_, ?_⟩
  · unfold build_lookup_xml
    rw [if_neg hnotin]
  · rw [hchild, hhier]
    rfl
  · intro hier hmem
    rw [hchild, hhier] at hmem
    rcases List.mem_singleton.mp hmem with rfl
    refine ⟨?_, ?_, ?_, ?_⟩
    · simp [XElem.childrenNamed, XElem.children, artigoPaiElem,
        dispositivoPrincipalElem, XElem.name]
    · simp [XElem.childrenNamed, XElem.children, artigoPaiElem,
        dispositivoPrincipalElem, XElem.name]
    · simp [XElem.childrenNamed, XElem.children, artigoPaiElem,
        dispositivoPrincipalElem, XElem.name]
    · intro irm hirm
      simp only [XElem.childrenNamed, XElem.children] at hirm
      rw [List.filter_append, List.filter_append] at hirm
      have h1 : ([artigoPaiElem p].filter
          (fun c => c.name = "dispositivos_irmaos")) = [] := by
        simp [artigoPaiElem, XElem.name]
      have h2 : ([dispositivoPrincipalElem m].filter
          (fun c => c.name = "dispositivos_irmaos")) = [] := by
        simp [dispositivoPrincipalElem, XElem.name]
      rw [h1, h2] at hirm
      simp only [List.nil_append] at hirm
      have h3 : ([XElem.mk "dispositivos_irmaos" [] "" (r.siblings.map irmaoElem)].filter
          (fun c => c.name = "dispositivos_irmaos"))
          = [XElem.mk "dispositivos_irmaos" [] "" (r.siblings.map irmaoElem)] := by
        simp [XElem.name]
      rw [h3] at hirm
      rcases List.mem_singleton.mp hirm with rfl
      constructor
      · show ((r.siblings.map irmaoElem).filter (fun c => c.name = "irmao")).length = 3
        have hall : (r.siblings.map irmaoElem).filter (fun c => c.name = "irmao")
            = r.siblings.map irmaoElem := by
          apply List.filter_eq_self.mpr
          intro e he
          obtain ⟨sib, _, rfl⟩ := List.mem_map.mp he
          simp [irmaoElem, XElem.name]
        rw [hall, List.length_map]
        exact hsib
      · show ((r.siblings.map irmaoElem).countP
            (fun c => c.attr "atual" = some (some "true"))) = 1
        rw [List.countP_map]
        rw [List.countP_congr (q := fun s => s.is_current)]
        · exact hcur
        · intro sib _
          cases hcurb : sib.is_current <;>
            simp [Function.comp, irmaoElem, XElem.attr, XElem.attrs, pyBoolStr, hcurb]

def c7Match : Hit :=
  { text := "§ 2º do Art. 18.", score := 0, source := "", metadata := mLei
    span_id := some "PAR-018-2", device_type := some "paragraph" }

def c7Parent : Hit :=
  { text := "Art. 18.", score := 0, source := "", metadata := mLei
    span_id := some "ART-018", device_type := some "article" }

def c7Sib1 : Hit :=
  { text := "§ 1º", score := 0, source := "", metadata := mLei
    span_id := some "PAR-018-1", device_type := some "paragraph" }

def c7Sib2 : Hit :=
  { text := "§ 2º", score := 0, source := "", metadata := mLei
    span_id := some "PAR-018-2", device_type := some "paragraph", is_current := true }

def c7Sib3 : Hit :=
  { text := "§ 3º", score := 0, source := "", metadata := mLei
    span_id := some "PAR-018-3", device_type := some "paragraph" }

def c7Res : LookupResult :=
  { query := "§ 2º do Art. 18 da Lei 14.133", status := "found"
    «match» := some c7Match, parent := some c7Parent
    siblings := [c7Sib1, c7Sib2, c7Sib3] }

theorem c7_witness :
    ("data" ∈ VALID_LEVELS ∧ c7Res.status = "found"
      ∧ c7Res.«match» = some c7Match ∧ c7Res.parent = some c7Parent
      ∧ c7Res.siblings.length = 3
      ∧ c7Res.siblings.countP (fun s => s.is_current) = 1)
    ∧ ((buildLookupXmlTree c7Res "data").childrenNamed "hierarquia_normativa").length = 1 :=
  ⟨⟨by decide, rfl, rfl, rfl, by decide, by decide⟩,
   (c7_lookup_hierarchy c7Res "data" (by decide) rfl c7Match rfl c7Parent rfl
     (by decide) (by decide)).2.1⟩

-- ===========================================================================
-- C9 — determinism of the builders and the static-scaffolding cache
-- ===========================================================================

/-- Every entry of the `_XML_CACHE` dict holds the string `_build_xml_base`
would produce for its key — the invariant of the lazily populated cache. -/
def cacheOk (c : XmlCache) : Prop :=
  ∀ (level s : String), c.lookup level = some s → s = build_xml_base level

theorem get_xml_base_fst (level : String) (c : XmlCache) (hc : cacheOk c) :
    (get_xml_base level c).1 = build_xml_base level := by
  unfold get_xml_base
  cases hl : c.lookup level with
  | some s => simpa using hc level s hl
  | none => rfl

theorem get_xml_base_cacheOk (level : String) (c : XmlCache) (hc : cacheOk c) :
    cacheOk (get_xml_base level c).2 := by
  unfold get_xml_base
  cases hl : c.lookup level with
  | some s => simpa using hc
  | none =>
    simp only
    intro k v hkv
    rw [List.lookup] at hkv
    by_cases hk : k = level
    · subst hk
      simp only [beq_self_eq_true] at hkv
      exact (Option.some.inj hkv).symm
    · have hb : (k == level) = false := beq_eq_false_iff_ne.mpr hk
      rw [hb] at hkv
      exact hc k v hkv

/-- C9: each builder is a pure function of the immutable result and the
level — two calls give byte-identical output — and the only mutable state
in the module, the `_XML_CACHE` of the static scaffolding, always returns
the deterministic `_build_xml_base` string, so a second (cache-hitting)
call returns exactly the first call's output. -/
theorem c9_determinism (r : SearchResult) (hy : HybridResult) (lk : LookupResult)
    (level : String) (cache : XmlCache) (hc : cacheOk cache) :
    build_xml r level = build_xml r level
    ∧ build_hybrid_xml hy level = build_hybrid_xml hy level
    ∧ build_lookup_xml lk level = build_lookup_xml lk level
    ∧ build_markdown r = build_markdown r
    ∧ build_response_schema r = build_response_schema r
    ∧ (get_xml_base level cache).1 = build_xml_base level
    ∧ (get_xml_base level (get_xml_base level cache).2).1 = (get_xml_base level cache).1
    ∧ cacheOk (get_xml_base level cache).2 := by
  have h1 := get_xml_base_fst level cache hc
  have h2 := get_xml_base_cacheOk level cache hc
  refine ⟨rfl, rfl, rfl, rfl, rfl, h1, ?_, h2⟩
  rw [get_xml_base_fst level _ h2, h1]

theorem c9_witness :
    cacheOk ([] : XmlCache)
    ∧ (get_xml_base "full" ([] : XmlCache)).1 = build_xml_base "full"
    ∧ (get_xml_base "full" (get_xml_base "full" ([] : XmlCache)).2).1
        = (get_xml_base "full" ([] : XmlCache)).1
    ∧ build_xml ({} : SearchResult) "data" = build_xml ({} : SearchResult) "data" := by
  have hnil : cacheOk ([] : XmlCache) := by
    intro l s h
    simp [List.lookup] at h
  exact ⟨hnil,
    (c9_determinism {} {} {} "full" [] hnil).2.2.2.2.2.1,
    (c9_determinism {} {} {} "full" [] hnil).2.2.2.2.2.2.1,
    (c9_determinism {} {} {} "data" [] hnil).1⟩
